import Mathlib

/-!
Verification development for the glm-realtime-demo WebSocket proxy servers.

The development shallowly embeds the two proxy programs:

* `doubao-proxy-server.js` — the Doubao bridge: a binary frame codec
  (`encodeMessage` / `decodeMessage`), per-connection session state, and the
  client/server WebSocket event handlers, modelled as pure functions from a
  `BridgeState` and an input to a new state plus a list of emitted effects.
* `proxy-server.js` — the GLM pass-through bridge (only the parts the claims
  need: the upstream-close handler).

External Node.js library operations (zlib gzip/gunzip, `JSON.parse`,
`Buffer.toString('utf8')`, base64 decoding, `Date.now()`) are not part of the
repository; they are passed in as function parameters (bundled in `Libs`),
so every theorem is quantified over their behaviour, constrained only by the
pointwise hypotheses a given statement needs.  `JSON.stringify`,
`Buffer.from(s,'utf8')` and the binary layout itself are implemented
concretely, following JavaScript semantics.

Bytes are modelled as `List Nat`; JavaScript's dynamically typed values are
modelled by the inductive `JVal` (with `jundef` for `undefined` and `jbuf`
for Node `Buffer`s).
-/

/-- Big-endian 4-byte encoding of a 32-bit value (`Buffer.writeUInt32BE`). -/
def u32be (n : Nat) : List Nat :=
  [n / 2 ^ 24 % 256, n / 2 ^ 16 % 256, n / 2 ^ 8 % 256, n % 256]

/-- Value of the first four bytes of a byte list, big-endian. -/
def val4 (l : List Nat) : Nat :=
  l.getD 0 0 * 2 ^ 24 + l.getD 1 0 * 2 ^ 16 + l.getD 2 0 * 2 ^ 8 + l.getD 3 0

/-- `buffer.readUInt32BE(i)`: big-endian unsigned 32-bit read at offset `i`. -/
def readU32 (bs : List Nat) (i : Nat) : Nat :=
  val4 (bs.drop i)

/-- `buffer.readInt32BE(i)`: big-endian signed 32-bit read at offset `i`. -/
def readI32 (bs : List Nat) (i : Nat) : Int :=
  if readU32 bs i < 2 ^ 31 then (readU32 bs i : Int) else (readU32 bs i : Int) - 2 ^ 32

/-- `buffer.slice(start, stop)`: bytes from `start` (inclusive) to `stop`
(exclusive), clamped to the buffer. -/
def sliceBytes (bs : List Nat) (start stop : Nat) : List Nat :=
  (bs.drop start).take (stop - start)

/-- UTF-8 encoding of a single character. -/
def utf8EncodeChar (c : Char) : List Nat :=
  let n := c.toNat
  if n < 128 then [n]
  else if n < 2048 then [192 + n / 64, 128 + n % 64]
  else if n < 65536 then [224 + n / 4096, 128 + n / 64 % 64, 128 + n % 64]
  else [240 + n / 262144, 128 + n / 4096 % 64, 128 + n / 64 % 64, 128 + n % 64]

/-- `Buffer.from(s, 'utf8')`: UTF-8 bytes of a string. -/
def utf8Bytes (s : String) : List Nat :=
  s.data.foldr (fun c acc => utf8EncodeChar c ++ acc) []

/-- JavaScript runtime values, as far as the proxy needs them: JSON data plus
`undefined` and Node `Buffer`s. -/
inductive JVal where
  | jnull : JVal
  | jundef : JVal
  | jbool : Bool → JVal
  | jnum : Int → JVal
  | jstr : String → JVal
  | jarr : List JVal → JVal
  | jobj : List (String × JVal) → JVal
  | jbuf : List Nat → JVal
deriving Repr

/-- Lowercase hexadecimal digit. -/
def hexDigit (n : Nat) : String :=
  if n = 0 then "0" else if n = 1 then "1" else if n = 2 then "2"
  else if n = 3 then "3" else if n = 4 then "4" else if n = 5 then "5"
  else if n = 6 then "6" else if n = 7 then "7" else if n = 8 then "8"
  else if n = 9 then "9" else if n = 10 then "a" else if n = 11 then "b"
  else if n = 12 then "c" else if n = 13 then "d" else if n = 14 then "e"
  else "f"

/-- JSON string escaping of one character, as `JSON.stringify` does it. -/
def escapeJsonChar (c : Char) : String :=
  if c = '"' then "\\\""
  else if c = '\\' then "\\\\"
  else if c.toNat = 8 then "\\b"
  else if c.toNat = 9 then "\\t"
  else if c.toNat = 10 then "\\n"
  else if c.toNat = 12 then "\\f"
  else if c.toNat = 13 then "\\r"
  else if c.toNat < 32 then "\\u00" ++ hexDigit (c.toNat / 16) ++ hexDigit (c.toNat % 16)
  else String.singleton c

/-- JSON string literal (quotes plus escaped content), as `JSON.stringify`. -/
def jsonQuote (s : String) : String :=
  "\"" ++ s.data.foldr (fun c acc => escapeJsonChar c ++ acc) "" ++ "\""

mutual

/-- JavaScript `JSON.stringify`, for the values this program produces: object
keys in insertion order, no whitespace, `undefined` object entries omitted,
`undefined` array entries printed as `null`, `Buffer`s via their `toJSON`
form. -/
def jsonStringify : JVal → String
  | JVal.jnull => "null"
  | JVal.jundef => "undefined"
  | JVal.jbool true => "true"
  | JVal.jbool false => "false"
  | JVal.jnum n => toString n
  | JVal.jstr s => jsonQuote s
  | JVal.jarr xs => "[" ++ String.intercalate "," (jsonStringifyArr xs) ++ "]"
  | JVal.jobj fs => "\x7b" ++ String.intercalate "," (jsonStringifyObj fs) ++ "\x7d"
  | JVal.jbuf bs =>
      "\x7b\"type\":\"Buffer\",\"data\":[" ++ String.intercalate "," (bs.map toString) ++ "]\x7d"

/-- Array elements of `JSON.stringify` (`undefined` becomes `null`). -/
def jsonStringifyArr : List JVal → List String
  | [] => []
  | JVal.jundef :: r => "null" :: jsonStringifyArr r
  | v :: r => jsonStringify v :: jsonStringifyArr r

/-- Object entries of `JSON.stringify` (`undefined`-valued keys are omitted). -/
def jsonStringifyObj : List (String × JVal) → List String
  | [] => []
  | (_, JVal.jundef) :: r => jsonStringifyObj r
  | (k, v) :: r => (jsonQuote k ++ ":" ++ jsonStringify v) :: jsonStringifyObj r

end

/-- JavaScript truthiness of a value. -/
def jvTruthy : JVal → Bool
  | JVal.jnull => false
  | JVal.jundef => false
  | JVal.jbool b => b
  | JVal.jnum n => n != 0
  | JVal.jstr s => s != ""
  | JVal.jarr _ => true
  | JVal.jobj _ => true
  | JVal.jbuf _ => true

/-- JavaScript `typeof v === 'object'` (true for `null`, arrays, plain
objects and `Buffer`s). -/
def jvTypeofObject : JVal → Bool
  | JVal.jnull => true
  | JVal.jarr _ => true
  | JVal.jobj _ => true
  | JVal.jbuf _ => true
  | _ => false

/-- `Buffer.isBuffer(v)`. -/
def jvIsBuffer : JVal → Bool
  | JVal.jbuf _ => true
  | _ => false

/-- The bytes of a `Buffer` value (empty for non-buffers). -/
def jvBufBytes : JVal → List Nat
  | JVal.jbuf bs => bs
  | _ => []

/-- JavaScript property access `v?.k` / `v.k`: `undefined` unless `v` is a
plain object carrying the key. -/
def jsGet (v : JVal) (k : String) : JVal :=
  match v with
  | JVal.jobj fs =>
      match fs.find? (fun p => p.1 == k) with
      | some p => p.2
      | none => JVal.jundef
  | _ => JVal.jundef

/-- JavaScript `a || b` on values: `a` if truthy, else `b`. -/
def jsOrJ (a b : JVal) : JVal :=
  if jvTruthy a then a else b

/-- JavaScript `a || b` for an optional string against a default string. -/
def jsOrStr (a : Option String) (d : String) : String :=
  match a with
  | some s => if s = "" then d else s
  | none => d

/-- JavaScript `a || b` on optional strings (`decoded.sessionId || sessionId`). -/
def jsOrOpt (a b : Option String) : Option String :=
  match a with
  | some s => if s = "" then b else some s
  | none => b

/-- Truthiness of a JS string variable that may be `null` (`Option.none`). -/
def truthyStr : Option String → Bool
  | some s => s != ""
  | none => false

mutual

/-- JavaScript `String(v)` conversion, for the values this program displays. -/
def jsToString : JVal → String
  | JVal.jnull => "null"
  | JVal.jundef => "undefined"
  | JVal.jbool true => "true"
  | JVal.jbool false => "false"
  | JVal.jnum n => toString n
  | JVal.jstr s => s
  | JVal.jarr xs => String.intercalate "," (jsToStringArr xs)
  | JVal.jobj _ => "[object Object]"
  | JVal.jbuf _ => "[object Object]"

/-- Array elements of `String(v)` (null/undefined join as empty). -/
def jsToStringArr : List JVal → List String
  | [] => []
  | JVal.jnull :: r => "" :: jsToStringArr r
  | JVal.jundef :: r => "" :: jsToStringArr r
  | v :: r => jsToString v :: jsToStringArr r

end

namespace MESSAGE_TYPES

/-- Message type nibble for full client requests (0b0001). -/
def FULL_CLIENT_REQUEST : Nat := 1

/-- Message type nibble for full server responses (0b1001). -/
def FULL_SERVER_RESPONSE : Nat := 9

/-- Message type nibble for audio-only client requests (0b0010). -/
def AUDIO_ONLY_REQUEST : Nat := 2

/-- Message type nibble for audio-only server responses / server ACKs (0b1011). -/
def AUDIO_ONLY_RESPONSE : Nat := 11

/-- Message type nibble for server error frames (0b1111). -/
def ERROR_INFO : Nat := 15

end MESSAGE_TYPES

namespace EVENT_IDS

/-- Client event: start the connection. -/
def START_CONNECTION : Nat := 1

/-- Client event: finish the connection. -/
def FINISH_CONNECTION : Nat := 2

/-- Client event: start a session. -/
def START_SESSION : Nat := 100

/-- Client event: finish a session. -/
def FINISH_SESSION : Nat := 102

/-- Client event: a task request (audio or text). -/
def TASK_REQUEST : Nat := 200

/-- Server event: connection started. -/
def CONNECTION_STARTED : Nat := 50

/-- Server event: connection failed. -/
def CONNECTION_FAILED : Nat := 51

/-- Server event: connection finished. -/
def CONNECTION_FINISHED : Nat := 52

/-- Server event: session started. -/
def SESSION_STARTED : Nat := 150

/-- Server event: session finished. -/
def SESSION_FINISHED : Nat := 152

/-- Server event: session failed. -/
def SESSION_FAILED : Nat := 153

/-- Server event: TTS audio response. -/
def TTS_RESPONSE : Nat := 352

/-- Server event: ASR info (speech started). -/
def ASR_INFO : Nat := 450

/-- Server event: ASR transcript. -/
def ASR_RESPONSE : Nat := 451

/-- Server event: ASR ended. -/
def ASR_ENDED : Nat := 459

/-- Server event: chat text response. -/
def CHAT_RESPONSE : Nat := 550

/-- Server event: chat response ended. -/
def CHAT_ENDED : Nat := 559

end EVENT_IDS

/-- Embedding of `encodeMessage` from `doubao-proxy-server.js`.  `gz` stands
for `zlib.gzipSync`.  The `errorCode` argument is accepted but never used,
exactly as in the source. -/
def encodeMessage (gz : List Nat → List Nat) (messageType messageTypeFlags : Nat)
    (payload : JVal) (eventId : Option Nat) (sessionId : Option String)
    (sequence : Option Nat) (errorCode : Option Nat) (useCompression : Bool) : List Nat :=
  let headerByte1 := 17
  let headerByte2 := ((messageType <<< 4) ||| messageTypeFlags) % 256
  let serializationMethod := if messageType = MESSAGE_TYPES.AUDIO_ONLY_REQUEST then 0 else 1
  let compressionType := if useCompression then 1 else 0
  let headerByte3 := ((serializationMethod <<< 4) ||| compressionType) % 256
  let headerByte4 := 0
  let seqPart := match sequence with
    | some n => u32be n
    | none => []
  let eventPart := match eventId with
    | some n => u32be n
    | none => []
  let sessionPart := match sessionId with
    | some sid => u32be (utf8Bytes sid).length ++ utf8Bytes sid
    | none => []
  let payloadBuf := match payload with
    | JVal.jbuf b => if useCompression then gz b else b
    | v => if useCompression then gz (utf8Bytes (jsonStringify v)) else utf8Bytes (jsonStringify v)
  let _ := errorCode
  [headerByte1, headerByte2, headerByte3, headerByte4] ++ seqPart ++ eventPart ++ sessionPart
    ++ u32be payloadBuf.length ++ payloadBuf

/-- The record `decodeMessage` returns (its object literal at the end). -/
structure Decoded where
  messageType : Nat
  flags : Nat
  errorCode : Option Nat
  sequence : Option Nat
  eventId : Option Nat
  sessionId : Option String
  payload : JVal
  rawPayload : List Nat
  serializationMethod : Nat
  compressionType : Nat
deriving Repr

/-- Payload decompression and deserialization step of `decodeMessage`:
gunzip when the compression nibble says GZIP (keeping the raw bytes if that
fails), then JSON-parse when the serialization nibble says JSON (falling back
to the UTF-8 string on failure); raw bytes for NO_SERIALIZATION; UTF-8 string
otherwise.  An empty payload is left as JS `null`. -/
def parsePayload (jparse : List Nat → Option JVal) (gunzip : List Nat → Option (List Nat))
    (utf8dec : List Nat → String) (ser comp : Nat) (payload : List Nat) : JVal :=
  if payload.length > 0 then
    let decompressed := if comp = 1 then
        match gunzip payload with
        | some d => d
        | none => payload
      else payload
    if ser = 1 then
      match jparse decompressed with
      | some v => v
      | none => JVal.jstr (utf8dec decompressed)
    else if ser = 0 then JVal.jbuf decompressed
    else JVal.jstr (utf8dec decompressed)
  else JVal.jnull

/-- Message type nibble of a wire buffer (`(buffer[1] >> 4) & 0x0F`). -/
def wireMessageType (bs : List Nat) : Nat :=
  (bs.getD 1 0) >>> 4 &&& 15

/-- Embedding of `decodeMessage` from `doubao-proxy-server.js`.  `jparse`,
`gunzip` and `utf8dec` stand for `JSON.parse`, `zlib.gunzipSync` and
`Buffer.toString('utf8')`. -/
def decodeMessage (jparse : List Nat → Option JVal) (gunzip : List Nat → Option (List Nat))
    (utf8dec : List Nat → String) (buffer : List Nat) : Option Decoded :=
  if buffer.length < 8 then none else
  let headerSize := buffer.getD 0 0 &&& 15
  let messageType := wireMessageType buffer
  let flags := buffer.getD 1 0 &&& 15
  let serializationMethod := (buffer.getD 2 0) >>> 4 &&& 15
  let compressionType := buffer.getD 2 0 &&& 15
  let offset0 := headerSize * 4
  if messageType = MESSAGE_TYPES.FULL_SERVER_RESPONSE ∨ messageType = 11 then
    let sequence := if flags &&& 2 ≠ 0 then some (readU32 buffer offset0) else none
    let offset1 := if flags &&& 2 ≠ 0 then offset0 + 4 else offset0
    let eventId := if flags &&& 4 ≠ 0 then some (readU32 buffer offset1) else none
    let offset2 := if flags &&& 4 ≠ 0 then offset1 + 4 else offset1
    let sessionIdSize := readI32 buffer offset2
    let offset3 := offset2 + 4
    let sessionId := if 0 < sessionIdSize then
        some (utf8dec (sliceBytes buffer offset3 (offset3 + sessionIdSize.toNat)))
      else none
    let offset4 := if 0 < sessionIdSize then offset3 + sessionIdSize.toNat else offset3
    let payloadSize := readU32 buffer offset4
    let payload := sliceBytes buffer (offset4 + 4) (offset4 + 4 + payloadSize)
    some { messageType := messageType, flags := flags, errorCode := none,
           sequence := sequence, eventId := eventId, sessionId := sessionId,
           payload := parsePayload jparse gunzip utf8dec serializationMethod compressionType payload,
           rawPayload := payload, serializationMethod := serializationMethod,
           compressionType := compressionType }
  else if messageType = MESSAGE_TYPES.ERROR_INFO then
    let errorCode := readU32 buffer offset0
    let payloadSize := readU32 buffer (offset0 + 4)
    let payload := sliceBytes buffer (offset0 + 8) (offset0 + 8 + payloadSize)
    some { messageType := messageType, flags := flags, errorCode := some errorCode,
           sequence := none, eventId := none, sessionId := none,
           payload := parsePayload jparse gunzip utf8dec serializationMethod compressionType payload,
           rawPayload := payload, serializationMethod := serializationMethod,
           compressionType := compressionType }
  else none

/-- Serialization nibble of an encoded frame's header (high nibble of byte 2). -/
def serNibble (bs : List Nat) : Nat :=
  (bs.getD 2 0) >>> 4 &&& 15

/-- Compression nibble of an encoded frame's header (low nibble of byte 2). -/
def compNibble (bs : List Nat) : Nat :=
  bs.getD 2 0 &&& 15

/-- Event id carried by an outbound frame, read back from its bytes the way the
wire format lays them out (after the optional sequence field, when the
hasEvent flag bit is set). -/
def frameEventId (bs : List Nat) : Option Nat :=
  let flags := bs.getD 1 0 &&& 15
  let off := if flags &&& 2 ≠ 0 then 8 else 4
  if flags &&& 4 ≠ 0 then some (readU32 bs off) else none

/-- The external library operations and ambient inputs a bridge connection
uses: `zlib.gzipSync`, `zlib.gunzipSync`, `JSON.parse`,
`Buffer.toString('utf8')`, `Buffer.from(·,'base64')` and `Date.now()`. -/
structure Libs where
  gz : List Nat → List Nat
  gunzip : List Nat → Option (List Nat)
  jparse : List Nat → Option JVal
  utf8dec : List Nat → String
  b64 : String → List Nat
  now : Nat

/-- An entry of the Doubao bridge's `messageQueue`. -/
inductive QueueItem where
  | audio : List Nat → QueueItem
  | audioBase64 : String → Option Bool → QueueItem
  | session : String → String → String → QueueItem
deriving Repr

/-- Observable actions a bridge connection performs on its two sockets.
`delayed ms effs` models a `setTimeout(…, ms)` whose callback performs
`effs`. -/
inductive Eff where
  | serverSend : List Nat → Eff
  | clientSendText : String → Eff
  | clientSendBinary : List Nat → Eff
  | clientClose : Nat → String → Eff
  | serverClose : Eff
  | delayed : Nat → List Eff → Eff
deriving Repr

/-- Per-connection mutable state of the Doubao bridge (`wss.on('connection')`
closure).  Ready states follow the WebSocket numbering: 0 CONNECTING,
1 OPEN, 2 CLOSING, 3 CLOSED. -/
structure BridgeState where
  messageQueue : List QueueItem
  sessionId : Option String
  connectionEstablished : Bool
  currentSystemMessage : Option String
  currentModel : Option String
  pendingSystemMessage : Option String
  pendingModel : Option String
  messageCount : Nat
  serverReadyState : Nat
  clientReadyState : Nat
deriving Repr

/-- The state a fresh connection starts in (the client socket is open, the
upstream socket still connecting). -/
def initBridgeState : BridgeState :=
  { messageQueue := [], sessionId := none, connectionEstablished := false,
    currentSystemMessage := none, currentModel := none,
    pendingSystemMessage := none, pendingModel := none,
    messageCount := 0, serverReadyState := 0, clientReadyState := 1 }

/-- The session configuration object `sendStartSession` builds. -/
def sessionConfig (systemMessage model : String) : JVal :=
  JVal.jobj [
    ("asr", JVal.jobj [
      ("extra", JVal.jobj [
        ("end_smooth_window_ms", JVal.jnum 1500),
        ("enable_custom_vad", JVal.jbool false),
        ("enable_asr_twopass", JVal.jbool false)])]),
    ("tts", JVal.jobj [
      ("speaker", JVal.jstr "zh_female_vv_jupiter_bigtts"),
      ("audio_config", JVal.jobj [
        ("channel", JVal.jnum 1),
        ("format", JVal.jstr "pcm_s16le"),
        ("sample_rate", JVal.jnum 24000)])]),
    ("dialog", JVal.jobj [
      ("model", JVal.jstr model),
      ("bot_name", JVal.jstr "豆包"),
      ("system_role", JVal.jstr systemMessage),
      ("instructions", JVal.jstr systemMessage),
      ("speaking_style", JVal.jstr ""),
      ("dialog_id", JVal.jstr ""),
      ("extra", JVal.jobj [
        ("strict_audit", JVal.jbool false),
        ("input_mod", JVal.jstr "audio"),
        ("recv_timeout", JVal.jnum 10)])])]

/-- `sendStartConnection`: emit the StartConnection frame if the upstream
socket is open. -/
def sendStartConnection (L : Libs) (s : BridgeState) : BridgeState × List Eff :=
  if s.serverReadyState ≠ 1 then (s, [])
  else
    (s, [Eff.serverSend (encodeMessage L.gz MESSAGE_TYPES.FULL_CLIENT_REQUEST 4
      (JVal.jobj []) (some EVENT_IDS.START_CONNECTION) none none none true)])

/-- `sendStartSession`: emit the StartSession frame with the session config. -/
def sendStartSession (L : Libs) (s : BridgeState) (systemMessage model : String) :
    BridgeState × List Eff :=
  (s, [Eff.serverSend (encodeMessage L.gz MESSAGE_TYPES.FULL_CLIENT_REQUEST 4
    (sessionConfig systemMessage model) (some EVENT_IDS.START_SESSION) s.sessionId
    none none true)])

/-- `sendTextTaskRequest`: emit a text TaskRequest, or do nothing when no
session id has been assigned. -/
def sendTextTaskRequest (L : Libs) (s : BridgeState) (text : String) :
    BridgeState × List Eff :=
  if ¬ truthyStr s.sessionId then (s, [])
  else
    let payload := JVal.jobj [
      ("text", JVal.jstr text),
      ("input_text", JVal.jstr text),
      ("input_mod", JVal.jstr "text"),
      ("input_mode", JVal.jstr "text")]
    (s, [Eff.serverSend (encodeMessage L.gz MESSAGE_TYPES.FULL_CLIENT_REQUEST 4
      payload (some EVENT_IDS.TASK_REQUEST) s.sessionId none none true)])

/-- `sendTaskRequest`: emit an audio TaskRequest (and bump `messageCount`),
or do nothing when no session id has been assigned.  `isLast` is accepted but
unused, exactly as in the source. -/
def sendTaskRequest (L : Libs) (s : BridgeState) (audioData : List Nat) (isLast : Bool) :
    BridgeState × List Eff :=
  if ¬ truthyStr s.sessionId then (s, [])
  else
    let _ := isLast
    ({s with messageCount := s.messageCount + 1},
     [Eff.serverSend (encodeMessage L.gz MESSAGE_TYPES.AUDIO_ONLY_REQUEST 4
       (JVal.jbuf audioData) (some EVENT_IDS.TASK_REQUEST) s.sessionId none none true)])

/-- `sendFinishSession`: emit the FinishSession frame (no session guard in
the source). -/
def sendFinishSession (L : Libs) (s : BridgeState) : BridgeState × List Eff :=
  (s, [Eff.serverSend (encodeMessage L.gz MESSAGE_TYPES.FULL_CLIENT_REQUEST 4
    (JVal.jobj []) (some EVENT_IDS.FINISH_SESSION) s.sessionId none none true)])

/-- `sendFinishConnection`: emit the FinishConnection frame. -/
def sendFinishConnection (L : Libs) (s : BridgeState) : BridgeState × List Eff :=
  (s, [Eff.serverSend (encodeMessage L.gz MESSAGE_TYPES.FULL_CLIENT_REQUEST 4
    (JVal.jobj []) (some EVENT_IDS.FINISH_CONNECTION) none none none true)])

/-- The parsed JSON control messages of the client-facing protocol, plus raw
binary frames. The unknown-type / unparsable case is `other`. -/
inductive ClientMsg where
  | binary : List Nat → ClientMsg
  | startSession : Option String → Option String → Option String → ClientMsg
  | audioData : String → Option Bool → ClientMsg
  | finishSession : ClientMsg
  | finishConnection : ClientMsg
  | textInput : String → ClientMsg
  | other : ClientMsg
deriving Repr

/-- Embedding of the `clientWs.on('message')` handler. -/
def clientMessageHandler (L : Libs) (s : BridgeState) (m : ClientMsg) :
    BridgeState × List Eff :=
  match m with
  | ClientMsg.binary data =>
      if s.serverReadyState = 1 ∧ truthyStr s.sessionId then
        sendTaskRequest L s data false
      else if s.serverReadyState = 1 ∧ ¬ truthyStr s.sessionId then
        ({s with messageQueue := s.messageQueue ++ [QueueItem.audio data]}, [])
      else if s.serverReadyState = 0 then
        ({s with messageQueue := s.messageQueue ++ [QueueItem.audio data]}, [])
      else (s, [])
  | ClientMsg.startSession msid msm mmodel =>
      let sid := jsOrStr msid ("session_" ++ toString L.now)
      let psm := jsOrStr msm "你是一个友好的AI助手"
      let pmodel := jsOrStr mmodel "O2.0"
      let s1 := {s with sessionId := some sid, pendingSystemMessage := some psm,
                        pendingModel := some pmodel, currentSystemMessage := some psm,
                        currentModel := some pmodel}
      if s.serverReadyState = 1 ∧ s.connectionEstablished then
        let (s2, e) := sendStartSession L s1 psm pmodel
        ({s2 with pendingSystemMessage := none, pendingModel := none}, e)
      else if s.serverReadyState = 1 then
        ({s1 with messageQueue := s1.messageQueue ++ [QueueItem.session sid psm pmodel]}, [])
      else (s1, [])
  | ClientMsg.audioData dataB64 isLast =>
      if s.serverReadyState = 1 ∧ truthyStr s.sessionId then
        sendTaskRequest L s (L.b64 dataB64) (isLast.getD false)
      else if s.serverReadyState = 0 then
        ({s with messageQueue := s.messageQueue ++ [QueueItem.audioBase64 dataB64 isLast]}, [])
      else (s, [])
  | ClientMsg.finishSession => sendFinishSession L s
  | ClientMsg.finishConnection => sendFinishConnection L s
  | ClientMsg.textInput t => sendTextTaskRequest L s t
  | ClientMsg.other => (s, [])

/-- The error text the ERROR_INFO branch of the server message handler sends
to the client. -/
def errorInfoMessage (d : Decoded) : String :=
  let errorMessage : String :=
    if jvTruthy d.payload then
      if jvTypeofObject d.payload then
        let v := jsOrJ (jsGet d.payload "error")
          (jsOrJ (jsGet d.payload "message") (jsGet d.payload "code"))
        if jvTruthy v then jsToString v else jsonStringify d.payload
      else jsToString d.payload
    else
      match d.errorCode with
      | some c => if c ≠ 0 then "错误代码: " ++ toString c else "未知错误"
      | none => "未知错误"
  jsonStringify (JVal.jobj [
    ("type", JVal.jstr "error"),
    ("error", JVal.jstr ("服务器错误: " ++ errorMessage)),
    ("details", d.payload)])

/-- The audio bytes the SERVER_ACK / TTS_RESPONSE branches extract: the
decoded payload when it is a `Buffer`, otherwise the raw payload,
decompressed when the compression nibble says GZIP (falling back to the raw
bytes when decompression fails). -/
def ackAudioData (gunzip : List Nat → Option (List Nat)) (d : Decoded) : List Nat :=
  if jvIsBuffer d.payload then jvBufBytes d.payload
  else if d.compressionType = 1 then
    match gunzip d.rawPayload with
    | some x => x
    | none => d.rawPayload
  else d.rawPayload

/-- The `session_started` JSON message sent to the client. -/
def sessionStartedJson (s : BridgeState) (d : Decoded) : String :=
  jsonStringify (JVal.jobj [
    ("type", JVal.jstr "session_started"),
    ("session_id", match s.sessionId with
      | some x => JVal.jstr x
      | none => JVal.jnull),
    ("dialog_id", jsGet d.payload "dialog_id"),
    ("debug_config", JVal.jobj [
      ("model", JVal.jstr (jsOrStr s.currentModel "unknown")),
      ("system_role", JVal.jstr (jsOrStr s.currentSystemMessage "unknown"))])])

/-- The CONNECTION_STARTED drain: replay queued items; session items trigger
StartSession, base64 audio becomes TaskRequests, binary audio is re-queued
(the session is not active yet). -/
def drainConnStarted (L : Libs) : BridgeState → List QueueItem → BridgeState × List Eff
  | s, [] => (s, [])
  | s, item :: rest =>
      let (s1, e1) :=
        match item with
        | QueueItem.session _ sm model => sendStartSession L s sm model
        | QueueItem.audioBase64 dat isLast => sendTaskRequest L s (L.b64 dat) (isLast.getD false)
        | QueueItem.audio dat => ({s with messageQueue := s.messageQueue ++ [QueueItem.audio dat]}, [])
      let (s2, e2) := drainConnStarted L s1 rest
      (s2, e1 ++ e2)

/-- The SESSION_STARTED drain: replay queued audio as TaskRequests (session
items are dropped). -/
def drainSessionStarted (L : Libs) : BridgeState → List QueueItem → BridgeState × List Eff
  | s, [] => (s, [])
  | s, item :: rest =>
      let (s1, e1) :=
        match item with
        | QueueItem.audio dat => sendTaskRequest L s dat false
        | QueueItem.audioBase64 dat isLast => sendTaskRequest L s (L.b64 dat) (isLast.getD false)
        | QueueItem.session _ _ _ => (s, [])
      let (s2, e2) := drainSessionStarted L s1 rest
      (s2, e1 ++ e2)

/-- Event dispatch (the `switch (decoded.eventId)` of the server message
handler), for frames that survived the earlier returns. -/
def dispatchEvent (L : Libs) (s : BridgeState) (d : Decoded) (ev : Nat) :
    BridgeState × List Eff :=
  if ev = EVENT_IDS.CONNECTION_STARTED then
    let s1 := {s with connectionEstablished := true}
    let (s2, e2) :=
      if truthyStr s1.pendingSystemMessage then
        let psm := s1.pendingSystemMessage.getD ""
        let pmodel := jsOrStr s1.pendingModel "O2.0"
        let s1' := {s1 with currentSystemMessage := some psm, currentModel := some pmodel}
        let (sa, ea) := sendStartSession L s1' psm pmodel
        ({sa with pendingSystemMessage := none, pendingModel := none}, ea)
      else (s1, [])
    let (s3, e3) :=
      if 0 < s2.messageQueue.length then
        drainConnStarted L {s2 with messageQueue := []} s2.messageQueue
      else (s2, [])
    (s3, e2 ++ e3)
  else if ev = EVENT_IDS.CONNECTION_FAILED then
    (s, if s.clientReadyState = 1 then
      [Eff.clientSendText (jsonStringify (JVal.jobj [
        ("type", JVal.jstr "error"),
        ("error", jsOrJ (jsGet d.payload "error") (JVal.jstr "连接失败"))]))]
    else [])
  else if ev = EVENT_IDS.SESSION_STARTED then
    let s1 := {s with sessionId := jsOrOpt d.sessionId s.sessionId}
    let (s2, e2) :=
      if 0 < s1.messageQueue.length then
        drainSessionStarted L {s1 with messageQueue := []} s1.messageQueue
      else (s1, [])
    let e3 :=
      if s2.clientReadyState = 1 then [Eff.clientSendText (sessionStartedJson s2 d)]
      else []
    (s2, e2 ++ e3)
  else if ev = EVENT_IDS.SESSION_FAILED then
    (s, if s.clientReadyState = 1 then
      [Eff.clientSendText (jsonStringify (JVal.jobj [
        ("type", JVal.jstr "error"),
        ("error", jsOrJ (jsGet d.payload "error") (JVal.jstr "会话失败"))]))]
    else [])
  else if ev = EVENT_IDS.ASR_INFO then
    (s, if s.clientReadyState = 1 then
      [Eff.clientSendText (jsonStringify (JVal.jobj [
        ("type", JVal.jstr "speech_started"),
        ("question_id", jsGet d.payload "question_id")]))]
    else [])
  else if ev = EVENT_IDS.ASR_RESPONSE then
    (s, if s.clientReadyState = 1 then
      [Eff.clientSendText (jsonStringify (JVal.jobj [
        ("type", JVal.jstr "asr_response"),
        ("results", jsGet d.payload "results")]))]
    else [])
  else if ev = EVENT_IDS.TTS_RESPONSE then
    (s, if s.clientReadyState = 1 then
      (let audioData := ackAudioData L.gunzip d
       if audioData ≠ [] then [Eff.clientSendBinary audioData] else [])
    else [])
  else if ev = EVENT_IDS.CHAT_RESPONSE then
    (s, if s.clientReadyState = 1 then
      [Eff.clientSendText (jsonStringify (JVal.jobj [
        ("type", JVal.jstr "chat_response"),
        ("content", jsGet d.payload "content"),
        ("question_id", jsGet d.payload "question_id"),
        ("reply_id", jsGet d.payload "reply_id")]))]
    else [])
  else if ev = EVENT_IDS.CHAT_ENDED then
    (s, if s.clientReadyState = 1 then
      [Eff.clientSendText (jsonStringify (JVal.jobj [
        ("type", JVal.jstr "chat_ended"),
        ("question_id", jsGet d.payload "question_id"),
        ("reply_id", jsGet d.payload "reply_id")]))]
    else [])
  else (s, [])

/-- Embedding of the `serverWs.on('message')` handler of the Doubao bridge. -/
def serverMessageHandler (L : Libs) (s : BridgeState) (data : List Nat) :
    BridgeState × List Eff :=
  match decodeMessage L.jparse L.gunzip L.utf8dec data with
  | none => (s, [])
  | some d =>
      let binEffs : List Eff :=
        if d.serializationMethod = 0 ∧ jvIsBuffer d.payload ∧ s.clientReadyState = 1 then
          [Eff.clientSendBinary (jvBufBytes d.payload)]
        else []
      if d.serializationMethod = 0 ∧ jvIsBuffer d.payload ∧ d.messageType = 11 then
        (s, binEffs)
      else if d.messageType = MESSAGE_TYPES.ERROR_INFO then
        (s, binEffs ++ (if s.clientReadyState = 1 then
          [Eff.clientSendText (errorInfoMessage d)] else []))
      else if d.messageType = 11 then
        let audioData := ackAudioData L.gunzip d
        (s, binEffs ++ (if audioData ≠ [] ∧ s.clientReadyState = 1 then
          [Eff.clientSendBinary audioData] else []))
      else
        match d.eventId with
        | none => (s, binEffs)
        | some ev =>
            let (s', e') := dispatchEvent L s d ev
            (s', binEffs ++ e')

/-- The close-code substitution of the Doubao bridge's upstream-close
handler: 1006 and non-positive codes are replaced with 1000. -/
def substitutedCloseCode (code : Nat) : Nat :=
  if code = 1006 ∨ code ≤ 0 then 1000 else code

/-- The human-readable meaning table for WebSocket close codes. -/
def closeCodeMeaning (code : Nat) : Option String :=
  if code = 1000 then some "正常关闭"
  else if code = 1001 then some "端点离开"
  else if code = 1002 then some "协议错误"
  else if code = 1003 then some "数据类型错误"
  else if code = 1006 then some "异常关闭（未收到关闭帧）"
  else if code = 1007 then some "数据格式错误"
  else if code = 1008 then some "策略违规"
  else if code = 1009 then some "消息过大"
  else if code = 1010 then some "扩展协商失败"
  else if code = 1011 then some "服务器错误"
  else none

/-- The error JSON the Doubao bridge sends to the client when the upstream
socket closes. -/
def serverCloseErrorJson (code : Nat) (reason : String) : String :=
  let meaning := match closeCodeMeaning code with
    | some m => m
    | none => "代码 " ++ toString code
  jsonStringify (JVal.jobj [
    ("type", JVal.jstr "error"),
    ("error", JVal.jstr ("服务器连接关闭: " ++ meaning ++ " - " ++ reason))])

/-- Embedding of the Doubao bridge's `serverWs.on('close')` handler. -/
def serverClosedHandler (s : BridgeState) (code : Nat) (reason : String) :
    BridgeState × List Eff :=
  if s.clientReadyState = 1 then
    (s, [Eff.clientSendText (serverCloseErrorJson code reason),
         Eff.clientClose (substitutedCloseCode code) "Server connection closed"])
  else (s, [])

/-- Embedding of the Doubao bridge's `clientWs.on('close')` handler:
FinishSession immediately, then (100 ms later) FinishConnection and the
upstream close. -/
def clientClosedHandler (L : Libs) (s : BridgeState) : BridgeState × List Eff :=
  if s.serverReadyState = 1 then
    let (s1, e1) := sendFinishSession L s
    let (s2, e2) := sendFinishConnection L s1
    (s2, e1 ++ [Eff.delayed 100 (e2 ++ [Eff.serverClose])])
  else (s, [])

/-- The inputs a Doubao bridge connection reacts to. -/
inductive BInput where
  | clientMsg : ClientMsg → BInput
  | serverData : List Nat → BInput
  | serverOpen : BInput
  | clientClosed : BInput
  | serverClosed : Nat → String → BInput
deriving Repr

/-- One reaction step of the Doubao bridge: socket state bookkeeping plus the
corresponding event handler. -/
def stepBridge (L : Libs) (s : BridgeState) : BInput → BridgeState × List Eff
  | BInput.clientMsg m => clientMessageHandler L s m
  | BInput.serverData b => serverMessageHandler L s b
  | BInput.serverOpen => sendStartConnection L {s with serverReadyState := 1}
  | BInput.clientClosed => clientClosedHandler L {s with clientReadyState := 3}
  | BInput.serverClosed code reason =>
      serverClosedHandler {s with serverReadyState := 3} code reason

/-- Run the bridge over a list of inputs, collecting all effects in order. -/
def runBridge (L : Libs) (s : BridgeState) : List BInput → BridgeState × List Eff
  | [] => (s, [])
  | i :: rest =>
      let (s1, e1) := stepBridge L s i
      let (s2, e2) := runBridge L s1 rest
      (s2, e1 ++ e2)

mutual

/-- The frames a single effect sends to the upstream socket, including those
inside `setTimeout` callbacks. -/
def serverFramesEff : Eff → List (List Nat)
  | Eff.serverSend f => [f]
  | Eff.delayed _ es => serverFrames es
  | Eff.clientSendText _ => []
  | Eff.clientSendBinary _ => []
  | Eff.clientClose _ _ => []
  | Eff.serverClose => []

/-- All frames sent to the upstream socket by a list of effects, including
those inside `setTimeout` callbacks. -/
def serverFrames : List Eff → List (List Nat)
  | [] => []
  | e :: r => serverFramesEff e ++ serverFrames r

end

/-- An input that can make the bridge assign a session id: a client
`start_session` message, or an upstream frame decoding to SESSION_STARTED. -/
def sessionTrigger (L : Libs) : BInput → Bool
  | BInput.clientMsg (ClientMsg.startSession _ _ _) => true
  | BInput.serverData bs =>
      match decodeMessage L.jparse L.gunzip L.utf8dec bs with
      | some d => d.eventId == some EVENT_IDS.SESSION_STARTED
      | none => false
  | _ => false

/-- Embedding of the GLM pass-through bridge's `serverWs.on('close')` handler
(`proxy-server.js`): the upstream close code and reason are forwarded to the
client verbatim. -/
def glmServerClosedHandler (clientReadyState : Nat) (code : Nat) (reason : String) :
    List Eff :=
  if clientReadyState = 1 then [Eff.clientClose code reason] else []

/-- Concrete instantiation of the library parameters for witnesses: gzip is
the identity, gunzip its inverse, JSON.parse never succeeds, UTF-8 decoding
and base64 decoding return empty results. -/
def stubLibs : Libs :=
  { gz := id, gunzip := some, jparse := fun _ => none,
    utf8dec := fun _ => "", b64 := fun _ => [], now := 0 }

theorem u32be_length (n : Nat) : (u32be n).length = 4 := rfl

theorem drop_append_eq (p q : List Nat) (i : Nat) (h : p.length = i) :
    (p ++ q).drop i = q := by
  subst h; exact List.drop_left p q

theorem val4_u32be_append (n : Nat) (q : List Nat) : val4 (u32be n ++ q) = n % 2 ^ 32 := by
  simp [val4, u32be, List.getD_cons_zero, List.getD_cons_succ]
  omega

theorem take_append_eq (p q : List Nat) (k : Nat) (h : p.length = k) :
    (p ++ q).take k = p := by
  subst h; exact List.take_left p q

theorem utf8EncodeChar_ne_nil (c : Char) : utf8EncodeChar c ≠ [] := by
  simp only [utf8EncodeChar]
  split_ifs <;> simp

theorem utf8Bytes_ne_nil (s : String) (h : s ≠ "") : utf8Bytes s ≠ [] := by
  cases s with
  | mk data =>
    cases data with
    | nil => exact absurd rfl h
    | cons c cs =>
      show utf8EncodeChar c ++ _ ≠ []
      simp [utf8EncodeChar_ne_nil c]

theorem decode_encode_seq_ev (gz : List Nat → List Nat) (gunzip : List Nat → Option (List Nat))
    (jparse : List Nat → Option JVal) (utf8dec : List Nat → String)
    (mt : Nat) (sq ev : Nat) (sid : String) (v : JVal) (ec : Option Nat)
    (hmt : mt = MESSAGE_TYPES.FULL_SERVER_RESPONSE ∨ mt = MESSAGE_TYPES.AUDIO_ONLY_RESPONSE)
    (hvb : jvIsBuffer v = false)
    (hsq : sq < 2 ^ 32) (hev : ev < 2 ^ 32)
    (hsid : sid ≠ "") (hsl : (utf8Bytes sid).length < 2 ^ 31)
    (hplen : (gz (utf8Bytes (jsonStringify v))).length < 2 ^ 32)
    (hud : utf8dec (utf8Bytes sid) = sid)
    (hgu : gunzip (gz (utf8Bytes (jsonStringify v))) = some (utf8Bytes (jsonStringify v)))
    (hne : gz (utf8Bytes (jsonStringify v)) ≠ [])
    (hjp : jparse (utf8Bytes (jsonStringify v)) = some v) :
    decodeMessage jparse gunzip utf8dec
      (encodeMessage gz mt 6 v (some ev) (some sid) (some sq) ec true) =
    some { messageType := mt, flags := 6, errorCode := none, sequence := some sq,
           eventId := some ev, sessionId := some sid, payload := v,
           rawPayload := gz (utf8Bytes (jsonStringify v)), serializationMethod := 1,
           compressionType := 1 } := by
  have hmt2 : mt ≠ MESSAGE_TYPES.AUDIO_ONLY_REQUEST := by
    rcases hmt with rfl | rfl <;> decide
  have hb2a : (((mt <<< 4) ||| 6) % 256) >>> 4 &&& 15 = mt := by
    rcases hmt with rfl | rfl <;> decide
  have hb2b : ((mt <<< 4) ||| 6) % 256 &&& 15 = 6 := by
    rcases hmt with rfl | rfl <;> decide
  have hcond : mt = MESSAGE_TYPES.FULL_SERVER_RESPONSE ∨ mt = 11 := hmt
  set sidB := utf8Bytes sid with hsidB
  set pb := gz (utf8Bytes (jsonStringify v)) with hpb
  have henc : encodeMessage gz mt 6 v (some ev) (some sid) (some sq) ec true =
      17 :: ((mt <<< 4) ||| 6) % 256 :: 17 :: 0 ::
        (u32be sq ++ (u32be ev ++ ((u32be sidB.length ++ sidB) ++ (u32be pb.length ++ pb)))) := by
    cases v <;> simp_all [encodeMessage, jvIsBuffer]
  rw [henc]
  set R := u32be sq ++ (u32be ev ++ ((u32be sidB.length ++ sidB) ++ (u32be pb.length ++ pb))) with hRdef
  set E := 17 :: ((mt <<< 4) ||| 6) % 256 :: 17 :: 0 :: R with hEdef
  have hlen : ¬ (E.length < 8) := by
    simp [hEdef, hRdef, u32be]
  have dr4 : E.drop 4 = R := rfl
  have r4 : readU32 E 4 = sq := by
    rw [readU32, dr4, hRdef, val4_u32be_append, Nat.mod_eq_of_lt hsq]
  have dr8 : E.drop 8 = u32be ev ++ ((u32be sidB.length ++ sidB) ++ (u32be pb.length ++ pb)) := by
    rw [show (8 : Nat) = 4 + 4 from rfl, ← List.drop_drop, dr4, hRdef,
        drop_append_eq _ _ _ (u32be_length sq)]
  have r8 : readU32 E 8 = ev := by
    rw [readU32, dr8, val4_u32be_append, Nat.mod_eq_of_lt hev]
  have dr12 : E.drop 12 = u32be sidB.length ++ (sidB ++ (u32be pb.length ++ pb)) := by
    rw [show (12 : Nat) = 8 + 4 from rfl, ← List.drop_drop, dr8,
        drop_append_eq _ _ _ (u32be_length ev), List.append_assoc]
  have hsl32 : sidB.length < 2 ^ 32 := by omega
  have r12 : readU32 E 12 = sidB.length := by
    rw [readU32, dr12, val4_u32be_append, Nat.mod_eq_of_lt hsl32]
  have ri12 : readI32 E 12 = (sidB.length : Int) := by
    rw [readI32, r12]
    rw [if_pos (by exact_mod_cast hsl)]
  have dr16 : E.drop 16 = sidB ++ (u32be pb.length ++ pb) := by
    rw [show (16 : Nat) = 12 + 4 from rfl, ← List.drop_drop, dr12,
        drop_append_eq _ _ _ (u32be_length sidB.length)]
  have hsidpos : 0 < sidB.length := List.length_pos.mpr (utf8Bytes_ne_nil sid hsid)
  have sidslice : sliceBytes E 16 (16 + sidB.length) = sidB := by
    rw [sliceBytes, dr16, Nat.add_sub_cancel_left, take_append_eq _ _ _ rfl]
  have drS : E.drop (16 + sidB.length) = u32be pb.length ++ pb := by
    rw [← List.drop_drop, dr16, drop_append_eq _ _ _ rfl]
  have rS : readU32 E (16 + sidB.length) = pb.length := by
    rw [readU32, drS, val4_u32be_append, Nat.mod_eq_of_lt hplen]
  have drP : E.drop (16 + sidB.length + 4) = pb := by
    rw [← List.drop_drop, drS, drop_append_eq _ _ _ (u32be_length pb.length)]
  have pslice : sliceBytes E (16 + sidB.length + 4) (16 + sidB.length + 4 + pb.length) = pb := by
    rw [sliceBytes, drP, Nat.add_sub_cancel_left, List.take_length]
  have hpbpos : 0 < pb.length := List.length_pos.mpr hne
  have hpp : parsePayload jparse gunzip utf8dec 1 1 pb = v := by
    simp [parsePayload, hpbpos, hgu, hjp]
  have g0 : E.getD 0 0 = 17 := rfl
  have g1 : E.getD 1 0 = ((mt <<< 4) ||| 6) % 256 := rfl
  have g2 : E.getD 2 0 = 17 := rfl
  simp only [decodeMessage, wireMessageType, g0, g1, g2, hb2a, hb2b,
    show (17 : Nat) >>> 4 &&& 15 = 1 from rfl,
    show (17 : Nat) &&& 15 = 1 from rfl,
    show (6 : Nat) &&& 2 = 2 from rfl,
    show (6 : Nat) &&& 4 = 4 from rfl]
  rw [if_neg hlen, if_pos hcond]
  norm_num [ri12, hsidpos, r4, r8]
  exact ⟨by rw [sidslice, hud], by rw [rS, pslice, hpp], by rw [rS, pslice]⟩

theorem decode_encode_ev (gz : List Nat → List Nat) (gunzip : List Nat → Option (List Nat))
    (jparse : List Nat → Option JVal) (utf8dec : List Nat → String)
    (mt : Nat) (ev : Nat) (sid : String) (v : JVal) (ec : Option Nat)
    (hmt : mt = MESSAGE_TYPES.FULL_SERVER_RESPONSE ∨ mt = MESSAGE_TYPES.AUDIO_ONLY_RESPONSE)
    (hvb : jvIsBuffer v = false)
    (hev : ev < 2 ^ 32)
    (hsid : sid ≠ "") (hsl : (utf8Bytes sid).length < 2 ^ 31)
    (hplen : (gz (utf8Bytes (jsonStringify v))).length < 2 ^ 32)
    (hud : utf8dec (utf8Bytes sid) = sid)
    (hgu : gunzip (gz (utf8Bytes (jsonStringify v))) = some (utf8Bytes (jsonStringify v)))
    (hne : gz (utf8Bytes (jsonStringify v)) ≠ [])
    (hjp : jparse (utf8Bytes (jsonStringify v)) = some v) :
    decodeMessage jparse gunzip utf8dec
      (encodeMessage gz mt 4 v (some ev) (some sid) none ec true) =
    some { messageType := mt, flags := 4, errorCode := none, sequence := none,
           eventId := some ev, sessionId := some sid, payload := v,
           rawPayload := gz (utf8Bytes (jsonStringify v)), serializationMethod := 1,
           compressionType := 1 } := by
  have hmt2 : mt ≠ MESSAGE_TYPES.AUDIO_ONLY_REQUEST := by
    rcases hmt with rfl | rfl <;> decide
  have hb2a : (((mt <<< 4) ||| 4) % 256) >>> 4 &&& 15 = mt := by
    rcases hmt with rfl | rfl <;> decide
  have hb2b : ((mt <<< 4) ||| 4) % 256 &&& 15 = 4 := by
    rcases hmt with rfl | rfl <;> decide
  have hcond : mt = MESSAGE_TYPES.FULL_SERVER_RESPONSE ∨ mt = 11 := hmt
  set sidB := utf8Bytes sid with hsidB
  set pb := gz (utf8Bytes (jsonStringify v)) with hpb
  have henc : encodeMessage gz mt 4 v (some ev) (some sid) none ec true =
      17 :: ((mt <<< 4) ||| 4) % 256 :: 17 :: 0 ::
        (u32be ev ++ ((u32be sidB.length ++ sidB) ++ (u32be pb.length ++ pb))) := by
    cases v <;> simp_all [encodeMessage, jvIsBuffer]
  rw [henc]
  set R := u32be ev ++ ((u32be sidB.length ++ sidB) ++ (u32be pb.length ++ pb)) with hRdef
  set E := 17 :: ((mt <<< 4) ||| 4) % 256 :: 17 :: 0 :: R with hEdef
  have hlen : ¬ (E.length < 8) := by
    simp [hEdef, hRdef, u32be]
  have dr4 : E.drop 4 = R := rfl
  have r4 : readU32 E 4 = ev := by
    rw [readU32, dr4, hRdef, val4_u32be_append, Nat.mod_eq_of_lt hev]
  have dr8 : E.drop 8 = u32be sidB.length ++ (sidB ++ (u32be pb.length ++ pb)) := by
    rw [show (8 : Nat) = 4 + 4 from rfl, ← List.drop_drop, dr4, hRdef,
        drop_append_eq _ _ _ (u32be_length ev), List.append_assoc]
  have hsl32 : sidB.length < 2 ^ 32 := by omega
  have r8 : readU32 E 8 = sidB.length := by
    rw [readU32, dr8, val4_u32be_append, Nat.mod_eq_of_lt hsl32]
  have ri8 : readI32 E 8 = (sidB.length : Int) := by
    rw [readI32, r8]
    rw [if_pos (by exact_mod_cast hsl)]
  have dr12 : E.drop 12 = sidB ++ (u32be pb.length ++ pb) := by
    rw [show (12 : Nat) = 8 + 4 from rfl, ← List.drop_drop, dr8,
        drop_append_eq _ _ _ (u32be_length sidB.length)]
  have hsidpos : 0 < sidB.length := List.length_pos.mpr (utf8Bytes_ne_nil sid hsid)
  have sidslice : sliceBytes E 12 (12 + sidB.length) = sidB := by
    rw [sliceBytes, dr12, Nat.add_sub_cancel_left, take_append_eq _ _ _ rfl]
  have drS : E.drop (12 + sidB.length) = u32be pb.length ++ pb := by
    rw [← List.drop_drop, dr12, drop_append_eq _ _ _ rfl]
  have rS : readU32 E (12 + sidB.length) = pb.length := by
    rw [readU32, drS, val4_u32be_append, Nat.mod_eq_of_lt hplen]
  have drP : E.drop (12 + sidB.length + 4) = pb := by
    rw [← List.drop_drop, drS, drop_append_eq _ _ _ (u32be_length pb.length)]
  have pslice : sliceBytes E (12 + sidB.length + 4) (12 + sidB.length + 4 + pb.length) = pb := by
    rw [sliceBytes, drP, Nat.add_sub_cancel_left, List.take_length]
  have hpbpos : 0 < pb.length := List.length_pos.mpr hne
  have hpp : parsePayload jparse gunzip utf8dec 1 1 pb = v := by
    simp [parsePayload, hpbpos, hgu, hjp]
  have g0 : E.getD 0 0 = 17 := rfl
  have g1 : E.getD 1 0 = ((mt <<< 4) ||| 4) % 256 := rfl
  have g2 : E.getD 2 0 = 17 := rfl
  simp only [decodeMessage, wireMessageType, g0, g1, g2, hb2a, hb2b,
    show (17 : Nat) >>> 4 &&& 15 = 1 from rfl,
    show (17 : Nat) &&& 15 = 1 from rfl,
    show (4 : Nat) &&& 2 = 0 from rfl,
    show (4 : Nat) &&& 4 = 4 from rfl]
  rw [if_neg hlen, if_pos hcond]
  norm_num [ri8, hsidpos, r4]
  exact ⟨by rw [sidslice, hud], by rw [rS, pslice, hpp], by rw [rS, pslice]⟩

theorem decode_encode_seq (gz : List Nat → List Nat) (gunzip : List Nat → Option (List Nat))
    (jparse : List Nat → Option JVal) (utf8dec : List Nat → String)
    (mt : Nat) (sq : Nat) (sid : String) (v : JVal) (ec : Option Nat)
    (hmt : mt = MESSAGE_TYPES.FULL_SERVER_RESPONSE ∨ mt = MESSAGE_TYPES.AUDIO_ONLY_RESPONSE)
    (hvb : jvIsBuffer v = false)
    (hsq : sq < 2 ^ 32)
    (hsid : sid ≠ "") (hsl : (utf8Bytes sid).length < 2 ^ 31)
    (hplen : (gz (utf8Bytes (jsonStringify v))).length < 2 ^ 32)
    (hud : utf8dec (utf8Bytes sid) = sid)
    (hgu : gunzip (gz (utf8Bytes (jsonStringify v))) = some (utf8Bytes (jsonStringify v)))
    (hne : gz (utf8Bytes (jsonStringify v)) ≠ [])
    (hjp : jparse (utf8Bytes (jsonStringify v)) = some v) :
    decodeMessage jparse gunzip utf8dec
      (encodeMessage gz mt 2 v none (some sid) (some sq) ec true) =
    some { messageType := mt, flags := 2, errorCode := none, sequence := some sq,
           eventId := none, sessionId := some sid, payload := v,
           rawPayload := gz (utf8Bytes (jsonStringify v)), serializationMethod := 1,
           compressionType := 1 } := by
  have hmt2 : mt ≠ MESSAGE_TYPES.AUDIO_ONLY_REQUEST := by
    rcases hmt with rfl | rfl <;> decide
  have hb2a : (((mt <<< 4) ||| 2) % 256) >>> 4 &&& 15 = mt := by
    rcases hmt with rfl | rfl <;> decide
  have hb2b : ((mt <<< 4) ||| 2) % 256 &&& 15 = 2 := by
    rcases hmt with rfl | rfl <;> decide
  have hcond : mt = MESSAGE_TYPES.FULL_SERVER_RESPONSE ∨ mt = 11 := hmt
  set sidB := utf8Bytes sid with hsidB
  set pb := gz (utf8Bytes (jsonStringify v)) with hpb
  have henc : encodeMessage gz mt 2 v none (some sid) (some sq) ec true =
      17 :: ((mt <<< 4) ||| 2) % 256 :: 17 :: 0 ::
        (u32be sq ++ ((u32be sidB.length ++ sidB) ++ (u32be pb.length ++ pb))) := by
    cases v <;> simp_all [encodeMessage, jvIsBuffer]
  rw [henc]
  set R := u32be sq ++ ((u32be sidB.length ++ sidB) ++ (u32be pb.length ++ pb)) with hRdef
  set E := 17 :: ((mt <<< 4) ||| 2) % 256 :: 17 :: 0 :: R with hEdef
  have hlen : ¬ (E.length < 8) := by
    simp [hEdef, hRdef, u32be]
  have dr4 : E.drop 4 = R := rfl
  have r4 : readU32 E 4 = sq := by
    rw [readU32, dr4, hRdef, val4_u32be_append, Nat.mod_eq_of_lt hsq]
  have dr8 : E.drop 8 = u32be sidB.length ++ (sidB ++ (u32be pb.length ++ pb)) := by
    rw [show (8 : Nat) = 4 + 4 from rfl, ← List.drop_drop, dr4, hRdef,
        drop_append_eq _ _ _ (u32be_length sq), List.append_assoc]
  have hsl32 : sidB.length < 2 ^ 32 := by omega
  have r8 : readU32 E 8 = sidB.length := by
    rw [readU32, dr8, val4_u32be_append, Nat.mod_eq_of_lt hsl32]
  have ri8 : readI32 E 8 = (sidB.length : Int) := by
    rw [readI32, r8]
    rw [if_pos (by exact_mod_cast hsl)]
  have dr12 : E.drop 12 = sidB ++ (u32be pb.length ++ pb) := by
    rw [show (12 : Nat) = 8 + 4 from rfl, ← List.drop_drop, dr8,
        drop_append_eq _ _ _ (u32be_length sidB.length)]
  have hsidpos : 0 < sidB.length := List.length_pos.mpr (utf8Bytes_ne_nil sid hsid)
  have sidslice : sliceBytes E 12 (12 + sidB.length) = sidB := by
    rw [sliceBytes, dr12, Nat.add_sub_cancel_left, take_append_eq _ _ _ rfl]
  have drS : E.drop (12 + sidB.length) = u32be pb.length ++ pb := by
    rw [← List.drop_drop, dr12, drop_append_eq _ _ _ rfl]
  have rS : readU32 E (12 + sidB.length) = pb.length := by
    rw [readU32, drS, val4_u32be_append, Nat.mod_eq_of_lt hplen]
  have drP : E.drop (12 + sidB.length + 4) = pb := by
    rw [← List.drop_drop, drS, drop_append_eq _ _ _ (u32be_length pb.length)]
  have pslice : sliceBytes E (12 + sidB.length + 4) (12 + sidB.length + 4 + pb.length) = pb := by
    rw [sliceBytes, drP, Nat.add_sub_cancel_left, List.take_length]
  have hpbpos : 0 < pb.length := List.length_pos.mpr hne
  have hpp : parsePayload jparse gunzip utf8dec 1 1 pb = v := by
    simp [parsePayload, hpbpos, hgu, hjp]
  have g0 : E.getD 0 0 = 17 := rfl
  have g1 : E.getD 1 0 = ((mt <<< 4) ||| 2) % 256 := rfl
  have g2 : E.getD 2 0 = 17 := rfl
  simp only [decodeMessage, wireMessageType, g0, g1, g2, hb2a, hb2b,
    show (17 : Nat) >>> 4 &&& 15 = 1 from rfl,
    show (17 : Nat) &&& 15 = 1 from rfl,
    show (2 : Nat) &&& 2 = 2 from rfl,
    show (2 : Nat) &&& 4 = 0 from rfl]
  rw [if_neg hlen, if_pos hcond]
  norm_num [ri8, hsidpos, r4]
  exact ⟨by rw [sidslice, hud], by rw [rS, pslice, hpp], by rw [rS, pslice]⟩

theorem decode_encode_plain (gz : List Nat → List Nat) (gunzip : List Nat → Option (List Nat))
    (jparse : List Nat → Option JVal) (utf8dec : List Nat → String)
    (mt : Nat) (sid : String) (v : JVal) (ec : Option Nat)
    (hmt : mt = MESSAGE_TYPES.FULL_SERVER_RESPONSE ∨ mt = MESSAGE_TYPES.AUDIO_ONLY_RESPONSE)
    (hvb : jvIsBuffer v = false)
    (hsid : sid ≠ "") (hsl : (utf8Bytes sid).length < 2 ^ 31)
    (hplen : (gz (utf8Bytes (jsonStringify v))).length < 2 ^ 32)
    (hud : utf8dec (utf8Bytes sid) = sid)
    (hgu : gunzip (gz (utf8Bytes (jsonStringify v))) = some (utf8Bytes (jsonStringify v)))
    (hne : gz (utf8Bytes (jsonStringify v)) ≠ [])
    (hjp : jparse (utf8Bytes (jsonStringify v)) = some v) :
    decodeMessage jparse gunzip utf8dec
      (encodeMessage gz mt 0 v none (some sid) none ec true) =
    some { messageType := mt, flags := 0, errorCode := none, sequence := none,
           eventId := none, sessionId := some sid, payload := v,
           rawPayload := gz (utf8Bytes (jsonStringify v)), serializationMethod := 1,
           compressionType := 1 } := by
  have hmt2 : mt ≠ MESSAGE_TYPES.AUDIO_ONLY_REQUEST := by
    rcases hmt with rfl | rfl <;> decide
  have hb2a : (((mt <<< 4) ||| 0) % 256) >>> 4 &&& 15 = mt := by
    rcases hmt with rfl | rfl <;> decide
  have hb2b : ((mt <<< 4) ||| 0) % 256 &&& 15 = 0 := by
    rcases hmt with rfl | rfl <;> decide
  have hcond : mt = MESSAGE_TYPES.FULL_SERVER_RESPONSE ∨ mt = 11 := hmt
  set sidB := utf8Bytes sid with hsidB
  set pb := gz (utf8Bytes (jsonStringify v)) with hpb
  have henc : encodeMessage gz mt 0 v none (some sid) none ec true =
      17 :: ((mt <<< 4) ||| 0) % 256 :: 17 :: 0 ::
        ((u32be sidB.length ++ sidB) ++ (u32be pb.length ++ pb)) := by
    cases v <;> simp_all [encodeMessage, jvIsBuffer]
  rw [henc]
  set R := (u32be sidB.length ++ sidB) ++ (u32be pb.length ++ pb) with hRdef
  set E := 17 :: ((mt <<< 4) ||| 0) % 256 :: 17 :: 0 :: R with hEdef
  have hlen : ¬ (E.length < 8) := by
    simp [hEdef, hRdef, u32be]
  have dr4 : E.drop 4 = u32be sidB.length ++ (sidB ++ (u32be pb.length ++ pb)) := by
    show R.drop 0 = _
    rw [List.drop_zero, hRdef, List.append_assoc]
  have hsl32 : sidB.length < 2 ^ 32 := by omega
  have r4 : readU32 E 4 = sidB.length := by
    rw [readU32, dr4, val4_u32be_append, Nat.mod_eq_of_lt hsl32]
  have ri4 : readI32 E 4 = (sidB.length : Int) := by
    rw [readI32, r4]
    rw [if_pos (by exact_mod_cast hsl)]
  have dr8 : E.drop 8 = sidB ++ (u32be pb.length ++ pb) := by
    rw [show (8 : Nat) = 4 + 4 from rfl, ← List.drop_drop, dr4,
        drop_append_eq _ _ _ (u32be_length sidB.length)]
  have hsidpos : 0 < sidB.length := List.length_pos.mpr (utf8Bytes_ne_nil sid hsid)
  have sidslice : sliceBytes E 8 (8 + sidB.length) = sidB := by
    rw [sliceBytes, dr8, Nat.add_sub_cancel_left, take_append_eq _ _ _ rfl]
  have drS : E.drop (8 + sidB.length) = u32be pb.length ++ pb := by
    rw [← List.drop_drop, dr8, drop_append_eq _ _ _ rfl]
  have rS : readU32 E (8 + sidB.length) = pb.length := by
    rw [readU32, drS, val4_u32be_append, Nat.mod_eq_of_lt hplen]
  have drP : E.drop (8 + sidB.length + 4) = pb := by
    rw [← List.drop_drop, drS, drop_append_eq _ _ _ (u32be_length pb.length)]
  have pslice : sliceBytes E (8 + sidB.length + 4) (8 + sidB.length + 4 + pb.length) = pb := by
    rw [sliceBytes, drP, Nat.add_sub_cancel_left, List.take_length]
  have hpbpos : 0 < pb.length := List.length_pos.mpr hne
  have hpp : parsePayload jparse gunzip utf8dec 1 1 pb = v := by
    simp [parsePayload, hpbpos, hgu, hjp]
  have g0 : E.getD 0 0 = 17 := rfl
  have g1 : E.getD 1 0 = ((mt <<< 4) ||| 0) % 256 := rfl
  have g2 : E.getD 2 0 = 17 := rfl
  simp only [decodeMessage, wireMessageType, g0, g1, g2, hb2a, hb2b,
    show (17 : Nat) >>> 4 &&& 15 = 1 from rfl,
    show (17 : Nat) &&& 15 = 1 from rfl,
    show (0 : Nat) &&& 2 = 0 from rfl,
    show (0 : Nat) &&& 4 = 0 from rfl]
  rw [if_neg hlen, if_pos hcond]
  norm_num [ri4, hsidpos]
  exact ⟨by rw [sidslice, hud], by rw [rS, pslice, hpp], by rw [rS, pslice]⟩

/-- C1: the round-trip claim is false as stated: frames built from the
client-originated message types FULL_CLIENT_REQUEST and AUDIO_ONLY_REQUEST
do not decode back to their inputs — `decodeMessage` rejects those message
types outright and returns null. -/
theorem C1_counterexample :
    decodeMessage (fun _ => none) some (fun _ => "")
      (encodeMessage id MESSAGE_TYPES.FULL_CLIENT_REQUEST 4 (JVal.jobj [])
        (some EVENT_IDS.START_CONNECTION) none none none true) = none
    ∧ decodeMessage (fun _ => none) some (fun _ => "")
      (encodeMessage id MESSAGE_TYPES.AUDIO_ONLY_REQUEST 4 (JVal.jbuf [1, 2, 3])
        (some EVENT_IDS.TASK_REQUEST) (some "s") none none true) = none := by
  exact ⟨rfl, rfl⟩

/-- C1 (amended): for server-originated message types (FULL_SERVER_RESPONSE
and SERVER_ACK), with a non-empty sessionId, flags consistent with the
fields present, and a non-Buffer (JSON) payload, decoding the bytes produced
by `encodeMessage` yields a frame whose semantic fields (messageType, flags,
eventId, sessionId, sequence, payload) equal the inputs, given that the
external gunzip / JSON.parse / UTF-8 decode invert the corresponding
encode-side operations on these values. -/
theorem C1_roundtrip (gz : List Nat → List Nat) (gunzip : List Nat → Option (List Nat))
    (jparse : List Nat → Option JVal) (utf8dec : List Nat → String)
    (mt : Nat) (hasSeq hasEv : Bool) (sq ev : Nat) (sid : String) (v : JVal) (ec : Option Nat)
    (hmt : mt = MESSAGE_TYPES.FULL_SERVER_RESPONSE ∨ mt = MESSAGE_TYPES.AUDIO_ONLY_RESPONSE)
    (hvb : jvIsBuffer v = false)
    (hsq : sq < 2 ^ 32) (hev : ev < 2 ^ 32)
    (hsid : sid ≠ "") (hsl : (utf8Bytes sid).length < 2 ^ 31)
    (hplen : (gz (utf8Bytes (jsonStringify v))).length < 2 ^ 32)
    (hud : utf8dec (utf8Bytes sid) = sid)
    (hgu : gunzip (gz (utf8Bytes (jsonStringify v))) = some (utf8Bytes (jsonStringify v)))
    (hne : gz (utf8Bytes (jsonStringify v)) ≠ [])
    (hjp : jparse (utf8Bytes (jsonStringify v)) = some v) :
    decodeMessage jparse gunzip utf8dec
      (encodeMessage gz mt ((if hasSeq then 2 else 0) + (if hasEv then 4 else 0)) v
        (if hasEv then some ev else none) (some sid) (if hasSeq then some sq else none) ec true) =
    some { messageType := mt, flags := (if hasSeq then 2 else 0) + (if hasEv then 4 else 0),
           errorCode := none, sequence := if hasSeq then some sq else none,
           eventId := if hasEv then some ev else none, sessionId := some sid, payload := v,
           rawPayload := gz (utf8Bytes (jsonStringify v)), serializationMethod := 1,
           compressionType := 1 } := by
  cases hasSeq <;> cases hasEv
  · exact decode_encode_plain gz gunzip jparse utf8dec mt sid v ec hmt hvb hsid hsl hplen hud hgu hne hjp
  · exact decode_encode_ev gz gunzip jparse utf8dec mt ev sid v ec hmt hvb hev hsid hsl hplen hud hgu hne hjp
  · exact decode_encode_seq gz gunzip jparse utf8dec mt sq sid v ec hmt hvb hsq hsid hsl hplen hud hgu hne hjp
  · exact decode_encode_seq_ev gz gunzip jparse utf8dec mt sq ev sid v ec hmt hvb hsq hev hsid hsl hplen hud hgu hne hjp

/-- JSON.parse stub inverting the encode side at the witness's payload. -/
def wJparseC1 : List Nat → Option JVal := fun bs =>
  if bs = utf8Bytes "\x7b\x7d" then some (JVal.jobj []) else none

/-- UTF-8 decode stub inverting the encode side at the witness's session id. -/
def wUtf8decC1 : List Nat → String := fun bs =>
  if bs = utf8Bytes "ab" then "ab" else ""

/-- Witness for the amended C1 round-trip at a concrete frame. -/
theorem C1_roundtrip_witness :
    decodeMessage wJparseC1 some wUtf8decC1
      (encodeMessage id 9 6 (JVal.jobj []) (some 150) (some "ab") (some 7) (some 5) true) =
    some { messageType := 9, flags := 6, errorCode := none, sequence := some 7,
           eventId := some 150, sessionId := some "ab", payload := JVal.jobj [],
           rawPayload := [123, 125], serializationMethod := 1, compressionType := 1 } :=
  C1_roundtrip id some wJparseC1 wUtf8decC1 9 true true 7 150 "ab" (JVal.jobj []) (some 5)
    (Or.inl rfl) rfl (by decide) (by decide) (by decide) (by decide) (by decide) rfl rfl
    (by decide) rfl

/-- C9: the serialization nibble does not depend on the payload's form:
an AUDIO_ONLY_REQUEST frame carrying a non-Buffer (JSON) payload still gets
serialization nibble NONE (0), refuting the claimed "payload is raw bytes"
conjunct of the iff. -/
theorem C9_counterexample :
    serNibble (encodeMessage id MESSAGE_TYPES.AUDIO_ONLY_REQUEST 4
      (JVal.jobj [("text", JVal.jstr "hi")]) (some EVENT_IDS.TASK_REQUEST)
      (some "s") none none true) = 0
    ∧ jvIsBuffer (JVal.jobj [("text", JVal.jstr "hi")]) = false := by
  exact ⟨rfl, rfl⟩

/-- C9 (amended): for every call to `encodeMessage`, the serialization nibble
of the emitted header is NONE (0) iff the messageType is AUDIO_ONLY_REQUEST
(regardless of the payload's form), and the compression nibble is GZIP (1)
iff the compress argument is true. -/
theorem C9_nibbles (gz : List Nat → List Nat) (mt fl : Nat) (p : JVal)
    (e : Option Nat) (sid : Option String) (sq : Option Nat) (ec : Option Nat)
    (compress : Bool) :
    serNibble (encodeMessage gz mt fl p e sid sq ec compress) =
      (if mt = MESSAGE_TYPES.AUDIO_ONLY_REQUEST then 0 else 1)
    ∧ compNibble (encodeMessage gz mt fl p e sid sq ec compress) =
      (if compress then 1 else 0) := by
  constructor <;>
  · simp only [serNibble, compNibble, encodeMessage]
    by_cases h1 : mt = MESSAGE_TYPES.AUDIO_ONLY_REQUEST <;> cases compress <;>
      simp [h1, List.getD_cons_zero, List.getD_cons_succ] <;> decide

theorem C4aux_seq_ev (jparse : List Nat → Option JVal) (gunzip : List Nat → Option (List Nat))
    (utf8dec : List Nat → String) (mt : Nat) (sq ev b3 : Nat) (pb : List Nat)
    (hmt : mt = MESSAGE_TYPES.FULL_SERVER_RESPONSE ∨ mt = MESSAGE_TYPES.AUDIO_ONLY_RESPONSE) :
    (decodeMessage jparse gunzip utf8dec
      ([17, 16 * mt + 6, b3, 0] ++ u32be sq ++ u32be ev ++ u32be 0 ++ u32be pb.length ++ pb)).map
        Decoded.sessionId = some none
    ∧ (decodeMessage jparse gunzip utf8dec
      ([17, 16 * mt + 6, b3, 0] ++ u32be sq ++ u32be ev ++ u32be 0 ++ u32be pb.length ++ pb)).map
        Decoded.messageType = some mt := by
  have hb2a : (16 * mt + 6) >>> 4 &&& 15 = mt := by
    rcases hmt with rfl | rfl <;> decide
  have hb2b : (16 * mt + 6) &&& 15 = 6 := by
    rcases hmt with rfl | rfl <;> decide
  have hcond : mt = MESSAGE_TYPES.FULL_SERVER_RESPONSE ∨ mt = 11 := hmt
  have hE : ([17, 16 * mt + 6, b3, 0] : List Nat) ++ u32be sq ++ u32be ev ++ u32be 0 ++ u32be pb.length ++ pb
      = 17 :: (16 * mt + 6) :: b3 :: 0 :: (u32be sq ++ (u32be ev ++ (u32be 0 ++ (u32be pb.length ++ pb)))) := by
    simp
  rw [hE]
  set R := u32be sq ++ (u32be ev ++ (u32be 0 ++ (u32be pb.length ++ pb))) with hRdef
  set E := 17 :: (16 * mt + 6) :: b3 :: 0 :: R with hEdef
  have hlen : ¬ (E.length < 8) := by
    simp [hEdef, hRdef, u32be]
  have dr4 : E.drop 4 = R := rfl
  have dr8 : E.drop 8 = u32be ev ++ (u32be 0 ++ (u32be pb.length ++ pb)) := by
    rw [show (8 : Nat) = 4 + 4 from rfl, ← List.drop_drop, dr4, hRdef,
        drop_append_eq _ _ _ (u32be_length sq)]
  have dr12 : E.drop 12 = u32be 0 ++ (u32be pb.length ++ pb) := by
    rw [show (12 : Nat) = 8 + 4 from rfl, ← List.drop_drop, dr8,
        drop_append_eq _ _ _ (u32be_length ev)]
  have r12 : readU32 E 12 = 0 := by
    rw [readU32, dr12, val4_u32be_append]
    norm_num
  have ri12 : readI32 E 12 = 0 := by
    rw [readI32, r12]
    norm_num
  have g0 : E.getD 0 0 = 17 := rfl
  have g1 : E.getD 1 0 = 16 * mt + 6 := rfl
  simp only [decodeMessage, wireMessageType, g0, g1, hb2a, hb2b,
    show (17 : Nat) &&& 15 = 1 from rfl,
    show (6 : Nat) &&& 2 = 2 from rfl,
    show (6 : Nat) &&& 4 = 4 from rfl]
  rw [if_neg hlen, if_pos hcond]
  norm_num [ri12]

theorem C4aux_ev (jparse : List Nat → Option JVal) (gunzip : List Nat → Option (List Nat))
    (utf8dec : List Nat → String) (mt : Nat) (ev b3 : Nat) (pb : List Nat)
    (hmt : mt = MESSAGE_TYPES.FULL_SERVER_RESPONSE ∨ mt = MESSAGE_TYPES.AUDIO_ONLY_RESPONSE) :
    (decodeMessage jparse gunzip utf8dec
      ([17, 16 * mt + 4, b3, 0] ++ u32be ev ++ u32be 0 ++ u32be pb.length ++ pb)).map
        Decoded.sessionId = some none
    ∧ (decodeMessage jparse gunzip utf8dec
      ([17, 16 * mt + 4, b3, 0] ++ u32be ev ++ u32be 0 ++ u32be pb.length ++ pb)).map
        Decoded.messageType = some mt := by
  have hb2a : (16 * mt + 4) >>> 4 &&& 15 = mt := by
    rcases hmt with rfl | rfl <;> decide
  have hb2b : (16 * mt + 4) &&& 15 = 4 := by
    rcases hmt with rfl | rfl <;> decide
  have hcond : mt = MESSAGE_TYPES.FULL_SERVER_RESPONSE ∨ mt = 11 := hmt
  have hE : ([17, 16 * mt + 4, b3, 0] : List Nat) ++ u32be ev ++ u32be 0 ++ u32be pb.length ++ pb
      = 17 :: (16 * mt + 4) :: b3 :: 0 :: (u32be ev ++ (u32be 0 ++ (u32be pb.length ++ pb))) := by
    simp
  rw [hE]
  set R := u32be ev ++ (u32be 0 ++ (u32be pb.length ++ pb)) with hRdef
  set E := 17 :: (16 * mt + 4) :: b3 :: 0 :: R with hEdef
  have hlen : ¬ (E.length < 8) := by
    simp [hEdef, hRdef, u32be]
  have dr4 : E.drop 4 = R := rfl
  have dr8 : E.drop 8 = u32be 0 ++ (u32be pb.length ++ pb) := by
    rw [show (8 : Nat) = 4 + 4 from rfl, ← List.drop_drop, dr4, hRdef,
        drop_append_eq _ _ _ (u32be_length ev)]
  have r8 : readU32 E 8 = 0 := by
    rw [readU32, dr8, val4_u32be_append]
    norm_num
  have ri8 : readI32 E 8 = 0 := by
    rw [readI32, r8]
    norm_num
  have g0 : E.getD 0 0 = 17 := rfl
  have g1 : E.getD 1 0 = 16 * mt + 4 := rfl
  simp only [decodeMessage, wireMessageType, g0, g1, hb2a, hb2b,
    show (17 : Nat) &&& 15 = 1 from rfl,
    show (4 : Nat) &&& 2 = 0 from rfl,
    show (4 : Nat) &&& 4 = 4 from rfl]
  rw [if_neg hlen, if_pos hcond]
  norm_num [ri8]

theorem C4aux_seq (jparse : List Nat → Option JVal) (gunzip : List Nat → Option (List Nat))
    (utf8dec : List Nat → String) (mt : Nat) (sq b3 : Nat) (pb : List Nat)
    (hmt : mt = MESSAGE_TYPES.FULL_SERVER_RESPONSE ∨ mt = MESSAGE_TYPES.AUDIO_ONLY_RESPONSE) :
    (decodeMessage jparse gunzip utf8dec
      ([17, 16 * mt + 2, b3, 0] ++ u32be sq ++ u32be 0 ++ u32be pb.length ++ pb)).map
        Decoded.sessionId = some none
    ∧ (decodeMessage jparse gunzip utf8dec
      ([17, 16 * mt + 2, b3, 0] ++ u32be sq ++ u32be 0 ++ u32be pb.length ++ pb)).map
        Decoded.messageType = some mt := by
  have hb2a : (16 * mt + 2) >>> 4 &&& 15 = mt := by
    rcases hmt with rfl | rfl <;> decide
  have hb2b : (16 * mt + 2) &&& 15 = 2 := by
    rcases hmt with rfl | rfl <;> decide
  have hcond : mt = MESSAGE_TYPES.FULL_SERVER_RESPONSE ∨ mt = 11 := hmt
  have hE : ([17, 16 * mt + 2, b3, 0] : List Nat) ++ u32be sq ++ u32be 0 ++ u32be pb.length ++ pb
      = 17 :: (16 * mt + 2) :: b3 :: 0 :: (u32be sq ++ (u32be 0 ++ (u32be pb.length ++ pb))) := by
    simp
  rw [hE]
  set R := u32be sq ++ (u32be 0 ++ (u32be pb.length ++ pb)) with hRdef
  set E := 17 :: (16 * mt + 2) :: b3 :: 0 :: R with hEdef
  have hlen : ¬ (E.length < 8) := by
    simp [hEdef, hRdef, u32be]
  have dr4 : E.drop 4 = R := rfl
  have dr8 : E.drop 8 = u32be 0 ++ (u32be pb.length ++ pb) := by
    rw [show (8 : Nat) = 4 + 4 from rfl, ← List.drop_drop, dr4, hRdef,
        drop_append_eq _ _ _ (u32be_length sq)]
  have r8 : readU32 E 8 = 0 := by
    rw [readU32, dr8, val4_u32be_append]
    norm_num
  have ri8 : readI32 E 8 = 0 := by
    rw [readI32, r8]
    norm_num
  have g0 : E.getD 0 0 = 17 := rfl
  have g1 : E.getD 1 0 = 16 * mt + 2 := rfl
  simp only [decodeMessage, wireMessageType, g0, g1, hb2a, hb2b,
    show (17 : Nat) &&& 15 = 1 from rfl,
    show (2 : Nat) &&& 2 = 2 from rfl,
    show (2 : Nat) &&& 4 = 0 from rfl]
  rw [if_neg hlen, if_pos hcond]
  norm_num [ri8]

theorem C4aux_plain (jparse : List Nat → Option JVal) (gunzip : List Nat → Option (List Nat))
    (utf8dec : List Nat → String) (mt : Nat) (b3 : Nat) (pb : List Nat)
    (hmt : mt = MESSAGE_TYPES.FULL_SERVER_RESPONSE ∨ mt = MESSAGE_TYPES.AUDIO_ONLY_RESPONSE) :
    (decodeMessage jparse gunzip utf8dec
      ([17, 16 * mt, b3, 0] ++ u32be 0 ++ u32be pb.length ++ pb)).map
        Decoded.sessionId = some none
    ∧ (decodeMessage jparse gunzip utf8dec
      ([17, 16 * mt, b3, 0] ++ u32be 0 ++ u32be pb.length ++ pb)).map
        Decoded.messageType = some mt := by
  have hb2a : (16 * mt) >>> 4 &&& 15 = mt := by
    rcases hmt with rfl | rfl <;> decide
  have hb2b : (16 * mt) &&& 15 = 0 := by
    rcases hmt with rfl | rfl <;> decide
  have hcond : mt = MESSAGE_TYPES.FULL_SERVER_RESPONSE ∨ mt = 11 := hmt
  have hE : ([17, 16 * mt, b3, 0] : List Nat) ++ u32be 0 ++ u32be pb.length ++ pb
      = 17 :: (16 * mt) :: b3 :: 0 :: (u32be 0 ++ (u32be pb.length ++ pb)) := by
    simp
  rw [hE]
  set R := u32be 0 ++ (u32be pb.length ++ pb) with hRdef
  set E := 17 :: (16 * mt) :: b3 :: 0 :: R with hEdef
  have hlen : ¬ (E.length < 8) := by
    simp [hEdef, hRdef, u32be]
  have dr4 : E.drop 4 = R := rfl
  have r4 : readU32 E 4 = 0 := by
    rw [readU32, dr4, hRdef, val4_u32be_append]
    norm_num
  have ri4 : readI32 E 4 = 0 := by
    rw [readI32, r4]
    norm_num
  have g0 : E.getD 0 0 = 17 := rfl
  have g1 : E.getD 1 0 = 16 * mt := rfl
  simp only [decodeMessage, wireMessageType, g0, g1, hb2a, hb2b,
    show (17 : Nat) &&& 15 = 1 from rfl,
    show (0 : Nat) &&& 2 = 0 from rfl,
    show (0 : Nat) &&& 4 = 0 from rfl]
  rw [if_neg hlen, if_pos hcond]
  norm_num [ri4]

/-- C4: the claim is false as stated: a well-formed FULL_SERVER_RESPONSE
buffer with sessionIdSize 0 decodes successfully, but the decoded frame's
sessionId is JS null (here `none`), not the empty string. -/
theorem C4_counterexample :
    (decodeMessage stubLibs.jparse stubLibs.gunzip stubLibs.utf8dec
      ([17, 148, 16, 0] ++ u32be 150 ++ u32be 0 ++ u32be 0)).map Decoded.sessionId = some none
    ∧ some (none : Option String) ≠ some (some "") := by
  exact ⟨rfl, by decide⟩

/-- C4 (amended): for every well-formed FULL_SERVER_RESPONSE or SERVER_ACK
buffer whose sessionIdSize field is 0, decodeMessage succeeds (returns a
frame, not null), and the decoded frame's sessionId is null (absent), not
the empty string. -/
theorem C4_sessionId_null (jparse : List Nat → Option JVal) (gunzip : List Nat → Option (List Nat))
    (utf8dec : List Nat → String) (mt : Nat) (hasSeq hasEv : Bool) (sq ev b3 : Nat) (pb : List Nat)
    (hmt : mt = MESSAGE_TYPES.FULL_SERVER_RESPONSE ∨ mt = MESSAGE_TYPES.AUDIO_ONLY_RESPONSE) :
    (decodeMessage jparse gunzip utf8dec
      ([17, 16 * mt + ((if hasSeq then 2 else 0) + (if hasEv then 4 else 0)), b3, 0]
        ++ (if hasSeq then u32be sq else []) ++ (if hasEv then u32be ev else [])
        ++ u32be 0 ++ u32be pb.length ++ pb)).map Decoded.sessionId = some none
    ∧ (decodeMessage jparse gunzip utf8dec
      ([17, 16 * mt + ((if hasSeq then 2 else 0) + (if hasEv then 4 else 0)), b3, 0]
        ++ (if hasSeq then u32be sq else []) ++ (if hasEv then u32be ev else [])
        ++ u32be 0 ++ u32be pb.length ++ pb)).map Decoded.messageType = some mt := by
  cases hasSeq <;> cases hasEv
  · exact C4aux_plain jparse gunzip utf8dec mt b3 pb hmt
  · exact C4aux_ev jparse gunzip utf8dec mt ev b3 pb hmt
  · exact C4aux_seq jparse gunzip utf8dec mt sq b3 pb hmt
  · exact C4aux_seq_ev jparse gunzip utf8dec mt sq ev b3 pb hmt

/-- Witness for the amended C4 at a concrete SERVER_ACK buffer. -/
theorem C4_witness :
    (decodeMessage stubLibs.jparse stubLibs.gunzip stubLibs.utf8dec
      ([17, 182, 16, 0] ++ u32be 1 ++ u32be 352 ++ u32be 0 ++ u32be 2 ++ [9, 9])).map
        Decoded.sessionId = some none :=
  (C4_sessionId_null stubLibs.jparse stubLibs.gunzip stubLibs.utf8dec 11 true true 1 352 16
    [9, 9] (Or.inr rfl)).1

theorem val4_u32be (n : Nat) : val4 (u32be n) = n % 2 ^ 32 := by
  rw [← List.append_nil (u32be n), val4_u32be_append]

theorem sliceBytes_self (bs : List Nat) (a : Nat) : sliceBytes bs a a = [] := by
  simp [sliceBytes]

theorem parsePayload_nil (jparse : List Nat → Option JVal) (gunzip : List Nat → Option (List Nat))
    (utf8dec : List Nat → String) (ser comp : Nat) :
    parsePayload jparse gunzip utf8dec ser comp [] = JVal.jnull := by
  simp [parsePayload]

theorem C5aux_seq_ev (jparse : List Nat → Option JVal) (gunzip : List Nat → Option (List Nat))
    (utf8dec : List Nat → String) (mt : Nat) (sq ev b3 : Nat) (sidB : List Nat)
    (hmt : mt = MESSAGE_TYPES.FULL_SERVER_RESPONSE ∨ mt = MESSAGE_TYPES.AUDIO_ONLY_RESPONSE)
    (hsid : 0 < sidB.length) (hsl : sidB.length < 2 ^ 31) :
    (decodeMessage jparse gunzip utf8dec
      ([17, 16 * mt + 6, b3, 0] ++ u32be sq ++ u32be ev ++ u32be sidB.length ++ sidB ++ u32be 0)).map
        Decoded.payload = some JVal.jnull
    ∧ (decodeMessage jparse gunzip utf8dec
      ([17, 16 * mt + 6, b3, 0] ++ u32be sq ++ u32be ev ++ u32be sidB.length ++ sidB ++ u32be 0)).map
        Decoded.rawPayload = some [] := by
  have hb2a : (16 * mt + 6) >>> 4 &&& 15 = mt := by
    rcases hmt with rfl | rfl <;> decide
  have hb2b : (16 * mt + 6) &&& 15 = 6 := by
    rcases hmt with rfl | rfl <;> decide
  have hcond : mt = MESSAGE_TYPES.FULL_SERVER_RESPONSE ∨ mt = 11 := hmt
  have hE : ([17, 16 * mt + 6, b3, 0] : List Nat) ++ u32be sq ++ u32be ev ++ u32be sidB.length ++ sidB ++ u32be 0
      = 17 :: (16 * mt + 6) :: b3 :: 0 :: (u32be sq ++ (u32be ev ++ (u32be sidB.length ++ (sidB ++ u32be 0)))) := by
    simp
  rw [hE]
  set R := u32be sq ++ (u32be ev ++ (u32be sidB.length ++ (sidB ++ u32be 0))) with hRdef
  set E := 17 :: (16 * mt + 6) :: b3 :: 0 :: R with hEdef
  have hlen : ¬ (E.length < 8) := by
    simp [hEdef, hRdef, u32be]
  have dr4 : E.drop 4 = R := rfl
  have dr8 : E.drop 8 = u32be ev ++ (u32be sidB.length ++ (sidB ++ u32be 0)) := by
    rw [show (8 : Nat) = 4 + 4 from rfl, ← List.drop_drop, dr4, hRdef,
        drop_append_eq _ _ _ (u32be_length sq)]
  have dr12 : E.drop 12 = u32be sidB.length ++ (sidB ++ u32be 0) := by
    rw [show (12 : Nat) = 8 + 4 from rfl, ← List.drop_drop, dr8,
        drop_append_eq _ _ _ (u32be_length ev)]
  have hsl32 : sidB.length < 2 ^ 32 := by omega
  have r12 : readU32 E 12 = sidB.length := by
    rw [readU32, dr12, val4_u32be_append, Nat.mod_eq_of_lt hsl32]
  have ri12 : readI32 E 12 = (sidB.length : Int) := by
    rw [readI32, r12]
    rw [if_pos (by exact_mod_cast hsl)]
  have dr16 : E.drop 16 = sidB ++ u32be 0 := by
    rw [show (16 : Nat) = 12 + 4 from rfl, ← List.drop_drop, dr12,
        drop_append_eq _ _ _ (u32be_length sidB.length)]
  have drS : E.drop (16 + sidB.length) = u32be 0 := by
    rw [← List.drop_drop, dr16, drop_append_eq _ _ _ rfl]
  have rS : readU32 E (16 + sidB.length) = 0 := by
    rw [readU32, drS, val4_u32be]
    norm_num
  have g0 : E.getD 0 0 = 17 := rfl
  have g1 : E.getD 1 0 = 16 * mt + 6 := rfl
  simp only [decodeMessage, wireMessageType, g0, g1, hb2a, hb2b,
    show (17 : Nat) &&& 15 = 1 from rfl,
    show (6 : Nat) &&& 2 = 2 from rfl,
    show (6 : Nat) &&& 4 = 4 from rfl]
  rw [if_neg hlen, if_pos hcond]
  norm_num [ri12, hsid, rS, sliceBytes_self, parsePayload_nil]

theorem C5aux_ev (jparse : List Nat → Option JVal) (gunzip : List Nat → Option (List Nat))
    (utf8dec : List Nat → String) (mt : Nat) (ev b3 : Nat) (sidB : List Nat)
    (hmt : mt = MESSAGE_TYPES.FULL_SERVER_RESPONSE ∨ mt = MESSAGE_TYPES.AUDIO_ONLY_RESPONSE)
    (hsid : 0 < sidB.length) (hsl : sidB.length < 2 ^ 31) :
    (decodeMessage jparse gunzip utf8dec
      ([17, 16 * mt + 4, b3, 0] ++ u32be ev ++ u32be sidB.length ++ sidB ++ u32be 0)).map
        Decoded.payload = some JVal.jnull
    ∧ (decodeMessage jparse gunzip utf8dec
      ([17, 16 * mt + 4, b3, 0] ++ u32be ev ++ u32be sidB.length ++ sidB ++ u32be 0)).map
        Decoded.rawPayload = some [] := by
  have hb2a : (16 * mt + 4) >>> 4 &&& 15 = mt := by
    rcases hmt with rfl | rfl <;> decide
  have hb2b : (16 * mt + 4) &&& 15 = 4 := by
    rcases hmt with rfl | rfl <;> decide
  have hcond : mt = MESSAGE_TYPES.FULL_SERVER_RESPONSE ∨ mt = 11 := hmt
  have hE : ([17, 16 * mt + 4, b3, 0] : List Nat) ++ u32be ev ++ u32be sidB.length ++ sidB ++ u32be 0
      = 17 :: (16 * mt + 4) :: b3 :: 0 :: (u32be ev ++ (u32be sidB.length ++ (sidB ++ u32be 0))) := by
    simp
  rw [hE]
  set R := u32be ev ++ (u32be sidB.length ++ (sidB ++ u32be 0)) with hRdef
  set E := 17 :: (16 * mt + 4) :: b3 :: 0 :: R with hEdef
  have hlen : ¬ (E.length < 8) := by
    simp [hEdef, hRdef, u32be]
  have dr4 : E.drop 4 = R := rfl
  have dr8 : E.drop 8 = u32be sidB.length ++ (sidB ++ u32be 0) := by
    rw [show (8 : Nat) = 4 + 4 from rfl, ← List.drop_drop, dr4, hRdef,
        drop_append_eq _ _ _ (u32be_length ev)]
  have hsl32 : sidB.length < 2 ^ 32 := by omega
  have r8 : readU32 E 8 = sidB.length := by
    rw [readU32, dr8, val4_u32be_append, Nat.mod_eq_of_lt hsl32]
  have ri8 : readI32 E 8 = (sidB.length : Int) := by
    rw [readI32, r8]
    rw [if_pos (by exact_mod_cast hsl)]
  have dr12 : E.drop 12 = sidB ++ u32be 0 := by
    rw [show (12 : Nat) = 8 + 4 from rfl, ← List.drop_drop, dr8,
        drop_append_eq _ _ _ (u32be_length sidB.length)]
  have drS : E.drop (12 + sidB.length) = u32be 0 := by
    rw [← List.drop_drop, dr12, drop_append_eq _ _ _ rfl]
  have rS : readU32 E (12 + sidB.length) = 0 := by
    rw [readU32, drS, val4_u32be]
    norm_num
  have g0 : E.getD 0 0 = 17 := rfl
  have g1 : E.getD 1 0 = 16 * mt + 4 := rfl
  simp only [decodeMessage, wireMessageType, g0, g1, hb2a, hb2b,
    show (17 : Nat) &&& 15 = 1 from rfl,
    show (4 : Nat) &&& 2 = 0 from rfl,
    show (4 : Nat) &&& 4 = 4 from rfl]
  rw [if_neg hlen, if_pos hcond]
  norm_num [ri8, hsid, rS, sliceBytes_self, parsePayload_nil]

theorem C5aux_seq (jparse : List Nat → Option JVal) (gunzip : List Nat → Option (List Nat))
    (utf8dec : List Nat → String) (mt : Nat) (sq b3 : Nat) (sidB : List Nat)
    (hmt : mt = MESSAGE_TYPES.FULL_SERVER_RESPONSE ∨ mt = MESSAGE_TYPES.AUDIO_ONLY_RESPONSE)
    (hsid : 0 < sidB.length) (hsl : sidB.length < 2 ^ 31) :
    (decodeMessage jparse gunzip utf8dec
      ([17, 16 * mt + 2, b3, 0] ++ u32be sq ++ u32be sidB.length ++ sidB ++ u32be 0)).map
        Decoded.payload = some JVal.jnull
    ∧ (decodeMessage jparse gunzip utf8dec
      ([17, 16 * mt + 2, b3, 0] ++ u32be sq ++ u32be sidB.length ++ sidB ++ u32be 0)).map
        Decoded.rawPayload = some [] := by
  have hb2a : (16 * mt + 2) >>> 4 &&& 15 = mt := by
    rcases hmt with rfl | rfl <;> decide
  have hb2b : (16 * mt + 2) &&& 15 = 2 := by
    rcases hmt with rfl | rfl <;> decide
  have hcond : mt = MESSAGE_TYPES.FULL_SERVER_RESPONSE ∨ mt = 11 := hmt
  have hE : ([17, 16 * mt + 2, b3, 0] : List Nat) ++ u32be sq ++ u32be sidB.length ++ sidB ++ u32be 0
      = 17 :: (16 * mt + 2) :: b3 :: 0 :: (u32be sq ++ (u32be sidB.length ++ (sidB ++ u32be 0))) := by
    simp
  rw [hE]
  set R := u32be sq ++ (u32be sidB.length ++ (sidB ++ u32be 0)) with hRdef
  set E := 17 :: (16 * mt + 2) :: b3 :: 0 :: R with hEdef
  have hlen : ¬ (E.length < 8) := by
    simp [hEdef, hRdef, u32be]
  have dr4 : E.drop 4 = R := rfl
  have dr8 : E.drop 8 = u32be sidB.length ++ (sidB ++ u32be 0) := by
    rw [show (8 : Nat) = 4 + 4 from rfl, ← List.drop_drop, dr4, hRdef,
        drop_append_eq _ _ _ (u32be_length sq)]
  have hsl32 : sidB.length < 2 ^ 32 := by omega
  have r8 : readU32 E 8 = sidB.length := by
    rw [readU32, dr8, val4_u32be_append, Nat.mod_eq_of_lt hsl32]
  have ri8 : readI32 E 8 = (sidB.length : Int) := by
    rw [readI32, r8]
    rw [if_pos (by exact_mod_cast hsl)]
  have dr12 : E.drop 12 = sidB ++ u32be 0 := by
    rw [show (12 : Nat) = 8 + 4 from rfl, ← List.drop_drop, dr8,
        drop_append_eq _ _ _ (u32be_length sidB.length)]
  have drS : E.drop (12 + sidB.length) = u32be 0 := by
    rw [← List.drop_drop, dr12, drop_append_eq _ _ _ rfl]
  have rS : readU32 E (12 + sidB.length) = 0 := by
    rw [readU32, drS, val4_u32be]
    norm_num
  have g0 : E.getD 0 0 = 17 := rfl
  have g1 : E.getD 1 0 = 16 * mt + 2 := rfl
  simp only [decodeMessage, wireMessageType, g0, g1, hb2a, hb2b,
    show (17 : Nat) &&& 15 = 1 from rfl,
    show (2 : Nat) &&& 2 = 2 from rfl,
    show (2 : Nat) &&& 4 = 0 from rfl]
  rw [if_neg hlen, if_pos hcond]
  norm_num [ri8, hsid, rS, sliceBytes_self, parsePayload_nil]

theorem C5aux_plain (jparse : List Nat → Option JVal) (gunzip : List Nat → Option (List Nat))
    (utf8dec : List Nat → String) (mt : Nat) (b3 : Nat) (sidB : List Nat)
    (hmt : mt = MESSAGE_TYPES.FULL_SERVER_RESPONSE ∨ mt = MESSAGE_TYPES.AUDIO_ONLY_RESPONSE)
    (hsid : 0 < sidB.length) (hsl : sidB.length < 2 ^ 31) :
    (decodeMessage jparse gunzip utf8dec
      ([17, 16 * mt, b3, 0] ++ u32be sidB.length ++ sidB ++ u32be 0)).map
        Decoded.payload = some JVal.jnull
    ∧ (decodeMessage jparse gunzip utf8dec
      ([17, 16 * mt, b3, 0] ++ u32be sidB.length ++ sidB ++ u32be 0)).map
        Decoded.rawPayload = some [] := by
  have hb2a : (16 * mt) >>> 4 &&& 15 = mt := by
    rcases hmt with rfl | rfl <;> decide
  have hb2b : (16 * mt) &&& 15 = 0 := by
    rcases hmt with rfl | rfl <;> decide
  have hcond : mt = MESSAGE_TYPES.FULL_SERVER_RESPONSE ∨ mt = 11 := hmt
  have hE : ([17, 16 * mt, b3, 0] : List Nat) ++ u32be sidB.length ++ sidB ++ u32be 0
      = 17 :: (16 * mt) :: b3 :: 0 :: (u32be sidB.length ++ (sidB ++ u32be 0)) := by
    simp
  rw [hE]
  set R := u32be sidB.length ++ (sidB ++ u32be 0) with hRdef
  set E := 17 :: (16 * mt) :: b3 :: 0 :: R with hEdef
  have hlen : ¬ (E.length < 8) := by
    simp [hEdef, hRdef, u32be]
  have dr4 : E.drop 4 = R := rfl
  have hsl32 : sidB.length < 2 ^ 32 := by omega
  have r4 : readU32 E 4 = sidB.length := by
    rw [readU32, dr4, hRdef, val4_u32be_append, Nat.mod_eq_of_lt hsl32]
  have ri4 : readI32 E 4 = (sidB.length : Int) := by
    rw [readI32, r4]
    rw [if_pos (by exact_mod_cast hsl)]
  have dr8 : E.drop 8 = sidB ++ u32be 0 := by
    rw [show (8 : Nat) = 4 + 4 from rfl, ← List.drop_drop, dr4, hRdef,
        drop_append_eq _ _ _ (u32be_length sidB.length)]
  have drS : E.drop (8 + sidB.length) = u32be 0 := by
    rw [← List.drop_drop, dr8, drop_append_eq _ _ _ rfl]
  have rS : readU32 E (8 + sidB.length) = 0 := by
    rw [readU32, drS, val4_u32be]
    norm_num
  have g0 : E.getD 0 0 = 17 := rfl
  have g1 : E.getD 1 0 = 16 * mt := rfl
  simp only [decodeMessage, wireMessageType, g0, g1, hb2a, hb2b,
    show (17 : Nat) &&& 15 = 1 from rfl,
    show (0 : Nat) &&& 2 = 0 from rfl,
    show (0 : Nat) &&& 4 = 0 from rfl]
  rw [if_neg hlen, if_pos hcond]
  norm_num [ri4, hsid, rS, sliceBytes_self, parsePayload_nil]

theorem C5aux_err (jparse : List Nat → Option JVal) (gunzip : List Nat → Option (List Nat))
    (utf8dec : List Nat → String) (fl b3 ec : Nat) (hfl : fl < 16) :
    (decodeMessage jparse gunzip utf8dec
      ([17, 240 + fl, b3, 0] ++ u32be ec ++ u32be 0)).map Decoded.payload = some JVal.jnull
    ∧ (decodeMessage jparse gunzip utf8dec
      ([17, 240 + fl, b3, 0] ++ u32be ec ++ u32be 0)).map Decoded.rawPayload = some [] := by
  have hb2a : (240 + fl) >>> 4 &&& 15 = 15 := by
    revert hfl
    revert fl
    decide
  have hE : ([17, 240 + fl, b3, 0] : List Nat) ++ u32be ec ++ u32be 0
      = 17 :: (240 + fl) :: b3 :: 0 :: (u32be ec ++ u32be 0) := by
    simp
  rw [hE]
  set R := u32be ec ++ u32be 0 with hRdef
  set E := 17 :: (240 + fl) :: b3 :: 0 :: R with hEdef
  have hlen : ¬ (E.length < 8) := by
    simp [hEdef, hRdef, u32be]
  have dr4 : E.drop 4 = R := rfl
  have dr8 : E.drop 8 = u32be 0 := by
    rw [show (8 : Nat) = 4 + 4 from rfl, ← List.drop_drop, dr4, hRdef,
        drop_append_eq _ _ _ (u32be_length ec)]
  have r8 : readU32 E 8 = 0 := by
    rw [readU32, dr8, val4_u32be]
    norm_num
  have g0 : E.getD 0 0 = 17 := rfl
  have g1 : E.getD 1 0 = 240 + fl := rfl
  have hnot : ¬ ((15 : Nat) = MESSAGE_TYPES.FULL_SERVER_RESPONSE ∨ (15 : Nat) = 11) := by decide
  simp only [decodeMessage, wireMessageType, g0, g1, hb2a,
    show (17 : Nat) &&& 15 = 1 from rfl]
  rw [if_neg hlen, if_neg hnot]
  norm_num [MESSAGE_TYPES.ERROR_INFO, r8, sliceBytes_self, parsePayload_nil]

/-- C5: the claim is false as stated: a well-formed frame with payloadSize 0
decodes to a frame whose payload field is JS null (not an empty payload
value); the raw payload slice is the empty byte buffer. -/
theorem C5_counterexample :
    (decodeMessage stubLibs.jparse stubLibs.gunzip stubLibs.utf8dec
      ([17, 148, 16, 0] ++ u32be 150 ++ u32be 0 ++ u32be 0)).map Decoded.payload = some JVal.jnull
    ∧ JVal.jnull ≠ JVal.jbuf [] ∧ JVal.jnull ≠ JVal.jstr "" := by
  refine ⟨rfl, ?_, ?_⟩
  · intro h
    cases h
  · intro h
    cases h

/-- C5 (amended): every well-formed frame whose payloadSize field is 0
decodes to a frame (not null) whose payload field is JS null and whose raw
payload is the empty byte buffer; this holds for FULL_SERVER_RESPONSE /
SERVER_ACK frames (with any flag combination and a non-empty sessionId) and
for ERROR_INFO frames. -/
theorem C5_payload_null (jparse : List Nat → Option JVal) (gunzip : List Nat → Option (List Nat))
    (utf8dec : List Nat → String) (mt : Nat) (hasSeq hasEv : Bool) (sq ev b3 : Nat)
    (sidB : List Nat) (fl ec : Nat)
    (hmt : mt = MESSAGE_TYPES.FULL_SERVER_RESPONSE ∨ mt = MESSAGE_TYPES.AUDIO_ONLY_RESPONSE)
    (hsid : 0 < sidB.length) (hsl : sidB.length < 2 ^ 31) (hfl : fl < 16) :
    ((decodeMessage jparse gunzip utf8dec
      ([17, 16 * mt + ((if hasSeq then 2 else 0) + (if hasEv then 4 else 0)), b3, 0]
        ++ (if hasSeq then u32be sq else []) ++ (if hasEv then u32be ev else [])
        ++ u32be sidB.length ++ sidB ++ u32be 0)).map Decoded.payload = some JVal.jnull
     ∧ (decodeMessage jparse gunzip utf8dec
      ([17, 16 * mt + ((if hasSeq then 2 else 0) + (if hasEv then 4 else 0)), b3, 0]
        ++ (if hasSeq then u32be sq else []) ++ (if hasEv then u32be ev else [])
        ++ u32be sidB.length ++ sidB ++ u32be 0)).map Decoded.rawPayload = some [])
    ∧ ((decodeMessage jparse gunzip utf8dec
      ([17, 240 + fl, b3, 0] ++ u32be ec ++ u32be 0)).map Decoded.payload = some JVal.jnull
     ∧ (decodeMessage jparse gunzip utf8dec
      ([17, 240 + fl, b3, 0] ++ u32be ec ++ u32be 0)).map Decoded.rawPayload = some []) := by
  constructor
  · cases hasSeq <;> cases hasEv
    · exact C5aux_plain jparse gunzip utf8dec mt b3 sidB hmt hsid hsl
    · exact C5aux_ev jparse gunzip utf8dec mt ev b3 sidB hmt hsid hsl
    · exact C5aux_seq jparse gunzip utf8dec mt sq b3 sidB hmt hsid hsl
    · exact C5aux_seq_ev jparse gunzip utf8dec mt sq ev b3 sidB hmt hsid hsl
  · exact C5aux_err jparse gunzip utf8dec fl b3 ec hfl

/-- Witness for the amended C5 at concrete buffers. -/
theorem C5_witness :
    (decodeMessage stubLibs.jparse stubLibs.gunzip stubLibs.utf8dec
      ([17, 150, 17, 0] ++ u32be 7 ++ u32be 150 ++ u32be 2 ++ [97, 98] ++ u32be 0)).map
        Decoded.payload = some JVal.jnull
    ∧ (decodeMessage stubLibs.jparse stubLibs.gunzip stubLibs.utf8dec
      ([17, 240, 16, 0] ++ u32be 40001 ++ u32be 0)).map Decoded.rawPayload = some [] :=
  ⟨((C5_payload_null stubLibs.jparse stubLibs.gunzip stubLibs.utf8dec 9 true true 7 150 17
      [97, 98] 0 40001 (Or.inl rfl) (by decide) (by decide) (by decide)).1).1,
   ((C5_payload_null stubLibs.jparse stubLibs.gunzip stubLibs.utf8dec 9 true true 7 150 16
      [97, 98] 0 40001 (Or.inl rfl) (by decide) (by decide) (by decide)).2).2⟩

/-- C3: decodeMessage returns null for every buffer shorter than 8 bytes and
for every buffer whose message type nibble is not FULL_SERVER_RESPONSE,
SERVER_ACK/AUDIO_ONLY_RESPONSE or ERROR_INFO; and a buffer decodeMessage
rejects has no effect in the server message handler (state unchanged, no
effects emitted). -/
theorem C3_decode_rejects (jparse : List Nat → Option JVal)
    (gunzip : List Nat → Option (List Nat)) (utf8dec : List Nat → String)
    (L : Libs) (bs : List Nat) (s : BridgeState) :
    (bs.length < 8 → decodeMessage jparse gunzip utf8dec bs = none)
    ∧ ((wireMessageType bs ≠ MESSAGE_TYPES.FULL_SERVER_RESPONSE
        ∧ wireMessageType bs ≠ MESSAGE_TYPES.AUDIO_ONLY_RESPONSE
        ∧ wireMessageType bs ≠ MESSAGE_TYPES.ERROR_INFO) →
        decodeMessage jparse gunzip utf8dec bs = none)
    ∧ (decodeMessage L.jparse L.gunzip L.utf8dec bs = none →
        stepBridge L s (BInput.serverData bs) = (s, [])) := by
  refine ⟨fun h => ?_, fun h => ?_, fun h => ?_⟩
  · simp only [decodeMessage]
    rw [if_pos h]
  · rcases h with ⟨h9, h11, h15⟩
    simp only [decodeMessage]
    by_cases hl : bs.length < 8
    · rw [if_pos hl]
    · rw [if_neg hl, if_neg (not_or.mpr ⟨h9, show wireMessageType bs ≠ 11 from h11⟩),
          if_neg h15]
  · simp [stepBridge, serverMessageHandler, h]

/-- Witness for C3: a short buffer, an unknown-type buffer, and the no-effect
consequence at the initial bridge state. -/
theorem C3_witness :
    decodeMessage stubLibs.jparse stubLibs.gunzip stubLibs.utf8dec [1, 2, 3] = none
    ∧ decodeMessage stubLibs.jparse stubLibs.gunzip stubLibs.utf8dec
        [17, 0, 17, 0, 0, 0, 0, 0] = none
    ∧ stepBridge stubLibs initBridgeState (BInput.serverData [1, 2, 3]) =
        (initBridgeState, []) :=
  ⟨(C3_decode_rejects stubLibs.jparse stubLibs.gunzip stubLibs.utf8dec stubLibs [1, 2, 3]
      initBridgeState).1 (by decide),
   (C3_decode_rejects stubLibs.jparse stubLibs.gunzip stubLibs.utf8dec stubLibs
      [17, 0, 17, 0, 0, 0, 0, 0] initBridgeState).2.1 (by decide),
   (C3_decode_rejects stubLibs.jparse stubLibs.gunzip stubLibs.utf8dec stubLibs [1, 2, 3]
      initBridgeState).2.2
     ((C3_decode_rejects stubLibs.jparse stubLibs.gunzip stubLibs.utf8dec stubLibs [1, 2, 3]
        initBridgeState).1 (by decide))⟩

/-- The wire bytes of the C6 scenario: an ERROR_INFO frame with
errorCode 40001, JSON serialization, no compression, and payload
the UTF-8 bytes of the JSON text for the object with field error =
"invalid auth". -/
def c6ErrorBuf : List Nat :=
  [17, 240, 16, 0] ++ u32be 40001
    ++ u32be (utf8Bytes "\x7b\"error\":\"invalid auth\"\x7d").length
    ++ utf8Bytes "\x7b\"error\":\"invalid auth\"\x7d"

/-- C6: when the upstream delivers the ERROR_INFO frame with errorCode 40001
and JSON payload with error = "invalid auth", and JSON.parse parses that
payload text as usual, the bridge sends the client exactly the claimed error
JSON text, emits nothing else, closes nothing, and leaves the state
unchanged. -/
theorem C6_error_forwarded (L : Libs) (s : BridgeState)
    (hopen : s.clientReadyState = 1)
    (hjp : L.jparse (utf8Bytes "\x7b\"error\":\"invalid auth\"\x7d") =
      some (JVal.jobj [("error", JVal.jstr "invalid auth")])) :
    stepBridge L s (BInput.serverData c6ErrorBuf) =
      (s, [Eff.clientSendText
        "\x7b\"type\":\"error\",\"error\":\"服务器错误: invalid auth\",\"details\":\x7b\"error\":\"invalid auth\"\x7d\x7d"]) := by
  have hpp : parsePayload L.jparse L.gunzip L.utf8dec 1 0
      (utf8Bytes "\x7b\"error\":\"invalid auth\"\x7d") =
      JVal.jobj [("error", JVal.jstr "invalid auth")] := by
    have h2 : parsePayload L.jparse L.gunzip L.utf8dec 1 0
        (utf8Bytes "\x7b\"error\":\"invalid auth\"\x7d") =
        (match L.jparse (utf8Bytes "\x7b\"error\":\"invalid auth\"\x7d") with
         | some v => v
         | none => JVal.jstr (L.utf8dec (utf8Bytes "\x7b\"error\":\"invalid auth\"\x7d"))) := rfl
    rw [h2, hjp]
  have hdec : decodeMessage L.jparse L.gunzip L.utf8dec c6ErrorBuf =
      some { messageType := 15, flags := 0, errorCode := some 40001,
             sequence := none, eventId := none, sessionId := none,
             payload := JVal.jobj [("error", JVal.jstr "invalid auth")],
             rawPayload := utf8Bytes "\x7b\"error\":\"invalid auth\"\x7d",
             serializationMethod := 1, compressionType := 0 } := by
    have h1 : decodeMessage L.jparse L.gunzip L.utf8dec c6ErrorBuf =
        some { messageType := 15, flags := 0, errorCode := some 40001,
               sequence := none, eventId := none, sessionId := none,
               payload := parsePayload L.jparse L.gunzip L.utf8dec 1 0
                 (utf8Bytes "\x7b\"error\":\"invalid auth\"\x7d"),
               rawPayload := utf8Bytes "\x7b\"error\":\"invalid auth\"\x7d",
               serializationMethod := 1, compressionType := 0 } := rfl
    rw [h1, hpp]
  simp only [stepBridge, serverMessageHandler, hdec, hopen]
  rfl

/-- Witness for C6 with a concrete JSON.parse that parses the payload text. -/
def wJparseC6 : List Nat → Option JVal := fun bs =>
  if bs = utf8Bytes "\x7b\"error\":\"invalid auth\"\x7d" then
    some (JVal.jobj [("error", JVal.jstr "invalid auth")])
  else none

/-- Witness for C6 at the concrete bridge state and libraries. -/
theorem C6_error_forwarded_witness :
    stepBridge { stubLibs with jparse := wJparseC6 } initBridgeState
      (BInput.serverData c6ErrorBuf) =
    (initBridgeState, [Eff.clientSendText
      "\x7b\"type\":\"error\",\"error\":\"服务器错误: invalid auth\",\"details\":\x7b\"error\":\"invalid auth\"\x7d\x7d"]) :=
  C6_error_forwarded { stubLibs with jparse := wJparseC6 } initBridgeState rfl rfl

theorem nibble_flags4 : ∀ m, m < 16 → (((m <<< 4) ||| 4) % 256) &&& 15 = 4 := by
  decide

theorem frameEventId_encode (gz : List Nat → List Nat) (mt : Nat) (p : JVal) (e : Nat)
    (sid : Option String) (ec : Option Nat) (c : Bool) (hmt : mt < 16) (he : e < 2 ^ 32) :
    frameEventId (encodeMessage gz mt 4 p (some e) sid none ec c) = some e := by
  obtain ⟨rest, hrest⟩ :
      ∃ rest, (encodeMessage gz mt 4 p (some e) sid none ec c).drop 4 = u32be e ++ rest :=
    ⟨_, rfl⟩
  have g1 : (encodeMessage gz mt 4 p (some e) sid none ec c).getD 1 0 =
      ((mt <<< 4) ||| 4) % 256 := rfl
  simp only [frameEventId, g1, nibble_flags4 mt hmt,
    show (4 : Nat) &&& 2 = 0 from rfl, show (4 : Nat) &&& 4 = 4 from rfl]
  norm_num [readU32, hrest, val4_u32be_append]
  all_goals omega

/-- C7: the claim is false as stated: with no session ever started
(sessionId is null, so no SESSION_STARTED was observed), a client close with
the upstream open still emits FINISH_SESSION — the source has no
sessionActive guard. -/
theorem C7_counterexample :
    (stepBridge stubLibs {initBridgeState with serverReadyState := 1} BInput.clientClosed).2 =
      [Eff.serverSend (encodeMessage id 1 4 (JVal.jobj []) (some 102) none none none true),
       Eff.delayed 100
         [Eff.serverSend (encodeMessage id 1 4 (JVal.jobj []) (some 2) none none none true),
          Eff.serverClose]]
    ∧ frameEventId (encodeMessage id 1 4 (JVal.jobj []) (some 102) none none none true) = some 102
    ∧ ({initBridgeState with serverReadyState := 1} : BridgeState).sessionId = none := by
  exact ⟨rfl, rfl, rfl⟩

/-- C7 (amended): when the client WebSocket closes while the upstream is
open, the bridge emits FINISH_SESSION unconditionally (whether or not a
session is active), then schedules — after a 100 ms delay — FINISH_CONNECTION
followed by the upstream close, in that order. -/
theorem C7_close_sequence (L : Libs) (s : BridgeState) (hopen : s.serverReadyState = 1) :
    stepBridge L s BInput.clientClosed =
      ({s with clientReadyState := 3},
       [Eff.serverSend (encodeMessage L.gz MESSAGE_TYPES.FULL_CLIENT_REQUEST 4 (JVal.jobj [])
          (some EVENT_IDS.FINISH_SESSION) s.sessionId none none true),
        Eff.delayed 100
          [Eff.serverSend (encodeMessage L.gz MESSAGE_TYPES.FULL_CLIENT_REQUEST 4 (JVal.jobj [])
             (some EVENT_IDS.FINISH_CONNECTION) none none none true),
           Eff.serverClose]])
    ∧ frameEventId (encodeMessage L.gz MESSAGE_TYPES.FULL_CLIENT_REQUEST 4 (JVal.jobj [])
        (some EVENT_IDS.FINISH_SESSION) s.sessionId none none true) = some EVENT_IDS.FINISH_SESSION
    ∧ frameEventId (encodeMessage L.gz MESSAGE_TYPES.FULL_CLIENT_REQUEST 4 (JVal.jobj [])
        (some EVENT_IDS.FINISH_CONNECTION) none none none true) = some EVENT_IDS.FINISH_CONNECTION := by
  refine ⟨?_, ?_, ?_⟩
  · simp [stepBridge, clientClosedHandler, sendFinishSession, sendFinishConnection, hopen]
  · exact frameEventId_encode L.gz MESSAGE_TYPES.FULL_CLIENT_REQUEST (JVal.jobj [])
      EVENT_IDS.FINISH_SESSION s.sessionId none true (by decide) (by decide)
  · exact frameEventId_encode L.gz MESSAGE_TYPES.FULL_CLIENT_REQUEST (JVal.jobj [])
      EVENT_IDS.FINISH_CONNECTION none none true (by decide) (by decide)

/-- Witness for the amended C7 at a concrete state. -/
theorem C7_close_sequence_witness :
    stepBridge stubLibs {initBridgeState with serverReadyState := 1} BInput.clientClosed =
      ({initBridgeState with serverReadyState := 1, clientReadyState := 3},
       [Eff.serverSend (encodeMessage id 1 4 (JVal.jobj []) (some 102) none none none true),
        Eff.delayed 100
          [Eff.serverSend (encodeMessage id 1 4 (JVal.jobj []) (some 2) none none none true),
           Eff.serverClose]]) :=
  (C7_close_sequence stubLibs {initBridgeState with serverReadyState := 1} rfl).1

/-- C8: the claim is false as stated for the GLM pass-through bridge: its
upstream-close handler forwards close code 1006 to the client verbatim. -/
theorem C8_counterexample :
    glmServerClosedHandler 1 1006 "upstream gone" =
      [Eff.clientClose 1006 "upstream gone"] := by
  exact rfl

/-- C8 (amended): the Doubao bridge never closes the client WebSocket with
code 1006 — it substitutes 1000 for 1006 (and for non-positive codes) and
otherwise forwards the upstream code; the GLM pass-through bridge forwards
the upstream close code to the client unchanged, including 1006. -/
theorem C8_close_codes (s : BridgeState) (code : Nat) (reason : String)
    (hopen : s.clientReadyState = 1) :
    serverClosedHandler s code reason =
      (s, [Eff.clientSendText (serverCloseErrorJson code reason),
           Eff.clientClose (substitutedCloseCode code) "Server connection closed"])
    ∧ substitutedCloseCode code ≠ 1006
    ∧ substitutedCloseCode 1006 = 1000
    ∧ glmServerClosedHandler 1 code reason = [Eff.clientClose code reason] := by
  refine ⟨?_, ?_, rfl, ?_⟩
  · simp [serverClosedHandler, hopen]
  · unfold substitutedCloseCode
    split_ifs <;> omega
  · simp [glmServerClosedHandler]

/-- Witness for the amended C8: at upstream close code 1006 the Doubao
handler closes the client with 1000, never 1006. -/
theorem C8_close_codes_witness :
    serverClosedHandler initBridgeState 1006 "x" =
      (initBridgeState, [Eff.clientSendText (serverCloseErrorJson 1006 "x"),
        Eff.clientClose 1000 "Server connection closed"])
    ∧ substitutedCloseCode 1006 ≠ 1006 :=
  ⟨(C8_close_codes initBridgeState 1006 "x" rfl).1,
   (C8_close_codes initBridgeState 1006 "x" rfl).2.1⟩

/-- C10: a text_input or base64 audio_data client message arriving before any
sessionId has been assigned transmits nothing upstream, emits nothing to the
client, leaves sessionId, connectionEstablished and the pending/current
config unchanged, and for the text case leaves the whole state (including
the buffer) untouched. -/
theorem C10_silent_discard (L : Libs) (s : BridgeState) (t : String) (dat : String)
    (lst : Option Bool) (hsid : s.sessionId = none) :
    clientMessageHandler L s (ClientMsg.textInput t) = (s, [])
    ∧ (clientMessageHandler L s (ClientMsg.audioData dat lst)).2 = []
    ∧ (clientMessageHandler L s (ClientMsg.audioData dat lst)).1.sessionId = none
    ∧ (clientMessageHandler L s (ClientMsg.audioData dat lst)).1.connectionEstablished
        = s.connectionEstablished
    ∧ (clientMessageHandler L s (ClientMsg.audioData dat lst)).1.pendingSystemMessage
        = s.pendingSystemMessage
    ∧ (clientMessageHandler L s (ClientMsg.audioData dat lst)).1.pendingModel = s.pendingModel
    ∧ (clientMessageHandler L s (ClientMsg.audioData dat lst)).1.currentSystemMessage
        = s.currentSystemMessage
    ∧ (clientMessageHandler L s (ClientMsg.audioData dat lst)).1.currentModel
        = s.currentModel := by
  refine ⟨?_, ?_, ?_, ?_, ?_, ?_, ?_, ?_⟩ <;>
  · by_cases h0 : s.serverReadyState = 0 <;>
      simp [clientMessageHandler, sendTextTaskRequest, truthyStr, h0, hsid]

/-- Witness for C10 at the initial state. -/
theorem C10_witness :
    clientMessageHandler stubLibs initBridgeState (ClientMsg.textInput "hi") =
      (initBridgeState, [])
    ∧ (clientMessageHandler stubLibs initBridgeState (ClientMsg.audioData "QUJD" none)).2 = [] :=
  ⟨(C10_silent_discard stubLibs initBridgeState "hi" "QUJD" none rfl).1,
   (C10_silent_discard stubLibs initBridgeState "hi" "QUJD" none rfl).2.1⟩



theorem serverFrames_append (a b : List Eff) :
    serverFrames (a ++ b) = serverFrames a ++ serverFrames b := by
  induction a with
  | nil => simp [serverFrames, serverFramesEff, List.singleton_append]
  | cons e rest ih =>
    cases e <;> simp [serverFrames, ih]

theorem drainConn_no200 (L : Libs) (q : List QueueItem) : ∀ (s : BridgeState),
    truthyStr s.sessionId = false →
    truthyStr (drainConnStarted L s q).1.sessionId = false
    ∧ ∀ f ∈ serverFrames (drainConnStarted L s q).2, frameEventId f ≠ some 200 := by
  induction q with
  | nil =>
    intro s hs
    simp [drainConnStarted, serverFrames, hs]
  | cons item rest ih =>
    intro s hs
    cases item with
    | session sid sm mdl =>
      have h100 := frameEventId_encode L.gz MESSAGE_TYPES.FULL_CLIENT_REQUEST
        (sessionConfig sm mdl) EVENT_IDS.START_SESSION s.sessionId none true
        (by decide) (by decide)
      have := ih s hs
      simp only [drainConnStarted, sendStartSession, serverFrames_append]
      refine ⟨this.1, ?_⟩
      intro f hf
      simp only [serverFrames, serverFramesEff, List.mem_append, List.mem_singleton,
        List.append_nil] at hf
      rcases hf with rfl | hf
      · rw [h100]
        decide
      · exact this.2 f hf
    | audioBase64 dat isLast =>
      have := ih s hs
      simp only [drainConnStarted, sendTaskRequest, hs]
      simp only [Bool.not_eq_true, hs]
      exact this
    | audio dat =>
      have := ih {s with messageQueue := s.messageQueue ++ [QueueItem.audio dat]} hs
      simp only [drainConnStarted]
      simpa [serverFrames, serverFramesEff, List.singleton_append] using this



theorem serverFrames_ite_nil (c : Prop) [Decidable c] (e1 e2 : List Eff)
    (h1 : serverFrames e1 = []) (h2 : serverFrames e2 = []) :
    serverFrames (if c then e1 else e2) = [] := by
  split <;> assumption


theorem serverFrames_ite_bin (c : Prop) [Decidable c] (x : List Nat) :
    serverFrames (if c then [Eff.clientSendBinary x] else []) = [] := by
  split <;> simp [serverFrames, serverFramesEff, List.singleton_append]

theorem serverFrames_ite_bin' (c : Prop) [Decidable c] (x : List Nat) :
    serverFrames (if c then [] else [Eff.clientSendBinary x]) = [] := by
  split <;> simp [serverFrames, serverFramesEff, List.singleton_append]

theorem serverFrames_ite_text (c : Prop) [Decidable c] (x : String) :
    serverFrames (if c then [Eff.clientSendText x] else []) = [] := by
  split <;> simp [serverFrames, serverFramesEff, List.singleton_append]

theorem dispatch_no200 (L : Libs) (s : BridgeState) (d : Decoded) (ev : Nat)
    (hsid : truthyStr s.sessionId = false) (hev : ev ≠ EVENT_IDS.SESSION_STARTED) :
    truthyStr (dispatchEvent L s d ev).1.sessionId = false
    ∧ ∀ f ∈ serverFrames (dispatchEvent L s d ev).2, frameEventId f ≠ some 200 := by
  by_cases h50 : ev = EVENT_IDS.CONNECTION_STARTED
  · have h100 := fun (sm mdl : String) (sid : Option String) =>
      frameEventId_encode L.gz MESSAGE_TYPES.FULL_CLIENT_REQUEST
        (sessionConfig sm mdl) EVENT_IDS.START_SESSION sid none true
        (by decide) (by decide)
    by_cases hp : truthyStr s.pendingSystemMessage = true <;>
      simp only [dispatchEvent, if_pos h50, sendStartSession, hp, if_true, if_false,
        Bool.false_eq_true, serverFrames_append, serverFrames, serverFramesEff, List.nil_append,
        List.append_nil] <;>
      by_cases hq : 0 < s.messageQueue.length
    · rw [if_pos hq]
      refine ⟨(drainConn_no200 L s.messageQueue
        { messageQueue := [], sessionId := s.sessionId, connectionEstablished := true,
          currentSystemMessage := some (s.pendingSystemMessage.getD ""),
          currentModel := some (jsOrStr s.pendingModel "O2.0"), pendingSystemMessage := none,
          pendingModel := none, messageCount := s.messageCount,
          serverReadyState := s.serverReadyState, clientReadyState := s.clientReadyState }
        hsid).1, fun f hf => ?_⟩
      rcases List.mem_cons.mp hf with rfl | hf
      · rw [h100]
        decide
      · exact (drainConn_no200 L s.messageQueue
          { messageQueue := [], sessionId := s.sessionId, connectionEstablished := true,
            currentSystemMessage := some (s.pendingSystemMessage.getD ""),
            currentModel := some (jsOrStr s.pendingModel "O2.0"), pendingSystemMessage := none,
            pendingModel := none, messageCount := s.messageCount,
            serverReadyState := s.serverReadyState, clientReadyState := s.clientReadyState }
          hsid).2 f hf
    · rw [if_neg hq]
      refine ⟨hsid, fun f hf => ?_⟩
      rcases List.mem_cons.mp hf with rfl | hf
      · rw [h100]
        decide
      · simp [serverFrames, serverFramesEff, List.singleton_append] at hf
    · rw [if_pos hq]
      refine ⟨(drainConn_no200 L s.messageQueue
        { messageQueue := [], sessionId := s.sessionId, connectionEstablished := true,
          currentSystemMessage := s.currentSystemMessage, currentModel := s.currentModel,
          pendingSystemMessage := s.pendingSystemMessage, pendingModel := s.pendingModel,
          messageCount := s.messageCount, serverReadyState := s.serverReadyState,
          clientReadyState := s.clientReadyState }
        hsid).1, fun f hf => ?_⟩
      exact (drainConn_no200 L s.messageQueue
        { messageQueue := [], sessionId := s.sessionId, connectionEstablished := true,
          currentSystemMessage := s.currentSystemMessage, currentModel := s.currentModel,
          pendingSystemMessage := s.pendingSystemMessage, pendingModel := s.pendingModel,
          messageCount := s.messageCount, serverReadyState := s.serverReadyState,
          clientReadyState := s.clientReadyState }
        hsid).2 f hf
    · rw [if_neg hq]
      exact ⟨hsid, by intro f hf; simp [serverFrames, serverFramesEff, List.singleton_append] at hf⟩
  · rw [dispatchEvent, if_neg h50]
    by_cases h51 : ev = EVENT_IDS.CONNECTION_FAILED
    · rw [if_pos h51]
      refine ⟨hsid, fun f hf => ?_⟩
      by_cases hc : s.clientReadyState = 1 <;> simp [hc, serverFrames, serverFramesEff, List.singleton_append] at hf
    rw [if_neg h51, if_neg hev]
    by_cases h153 : ev = EVENT_IDS.SESSION_FAILED
    · rw [if_pos h153]
      refine ⟨hsid, fun f hf => ?_⟩
      by_cases hc : s.clientReadyState = 1 <;> simp [hc, serverFrames, serverFramesEff, List.singleton_append] at hf
    rw [if_neg h153]
    by_cases h450 : ev = EVENT_IDS.ASR_INFO
    · rw [if_pos h450]
      refine ⟨hsid, fun f hf => ?_⟩
      by_cases hc : s.clientReadyState = 1 <;> simp [hc, serverFrames, serverFramesEff, List.singleton_append] at hf
    rw [if_neg h450]
    by_cases h451 : ev = EVENT_IDS.ASR_RESPONSE
    · rw [if_pos h451]
      refine ⟨hsid, fun f hf => ?_⟩
      by_cases hc : s.clientReadyState = 1 <;> simp [hc, serverFrames, serverFramesEff, List.singleton_append] at hf
    rw [if_neg h451]
    by_cases h352 : ev = EVENT_IDS.TTS_RESPONSE
    · rw [if_pos h352]
      refine ⟨hsid, fun f hf => ?_⟩
      by_cases hc : s.clientReadyState = 1 <;>
        by_cases ha : ackAudioData L.gunzip d ≠ [] <;>
        simp [hc, ha, serverFrames, serverFramesEff, List.singleton_append] at hf
    rw [if_neg h352]
    by_cases h550 : ev = EVENT_IDS.CHAT_RESPONSE
    · rw [if_pos h550]
      refine ⟨hsid, fun f hf => ?_⟩
      by_cases hc : s.clientReadyState = 1 <;> simp [hc, serverFrames, serverFramesEff, List.singleton_append] at hf
    rw [if_neg h550]
    by_cases h559 : ev = EVENT_IDS.CHAT_ENDED
    · rw [if_pos h559]
      refine ⟨hsid, fun f hf => ?_⟩
      by_cases hc : s.clientReadyState = 1 <;> simp [hc, serverFrames, serverFramesEff, List.singleton_append] at hf
    rw [if_neg h559]
    exact ⟨hsid, by intro f hf; simp [serverFrames, serverFramesEff, List.singleton_append] at hf⟩

theorem clientMsg_no200 (L : Libs) (s : BridgeState) (m : ClientMsg)
    (hsid : truthyStr s.sessionId = false)
    (hns : ∀ a b c, m ≠ ClientMsg.startSession a b c) :
    truthyStr (clientMessageHandler L s m).1.sessionId = false
    ∧ ∀ f ∈ serverFrames (clientMessageHandler L s m).2, frameEventId f ≠ some 200 := by
  cases m with
  | binary dat =>
    by_cases h1 : s.serverReadyState = 1 <;> by_cases h0 : s.serverReadyState = 0 <;>
      simp [clientMessageHandler, h1, h0, hsid, serverFrames, serverFramesEff, List.singleton_append]
  | startSession a b c => exact absurd rfl (hns a b c)
  | audioData dat lst =>
    by_cases h1 : s.serverReadyState = 1 <;> by_cases h0 : s.serverReadyState = 0 <;>
      simp [clientMessageHandler, h1, h0, hsid, serverFrames, serverFramesEff, List.singleton_append]
  | finishSession =>
    refine ⟨hsid, fun f hf => ?_⟩
    simp only [clientMessageHandler, sendFinishSession, serverFrames, serverFramesEff,
      List.append_nil, List.mem_singleton] at hf
    subst hf
    rw [frameEventId_encode L.gz MESSAGE_TYPES.FULL_CLIENT_REQUEST (JVal.jobj [])
      EVENT_IDS.FINISH_SESSION s.sessionId none true (by decide) (by decide)]
    decide
  | finishConnection =>
    refine ⟨hsid, fun f hf => ?_⟩
    simp only [clientMessageHandler, sendFinishConnection, serverFrames, serverFramesEff,
      List.append_nil, List.mem_singleton] at hf
    subst hf
    rw [frameEventId_encode L.gz MESSAGE_TYPES.FULL_CLIENT_REQUEST (JVal.jobj [])
      EVENT_IDS.FINISH_CONNECTION none none true (by decide) (by decide)]
    decide
  | textInput t =>
    constructor <;> simp [clientMessageHandler, sendTextTaskRequest, hsid, serverFrames, serverFramesEff, List.singleton_append]
  | other =>
    exact ⟨hsid, by intro f hf; simp [clientMessageHandler, serverFrames, serverFramesEff, List.singleton_append] at hf⟩

theorem serverMsg_no200 (L : Libs) (s : BridgeState) (bs : List Nat)
    (hsid : truthyStr s.sessionId = false)
    (htrig : sessionTrigger L (BInput.serverData bs) = false) :
    truthyStr (serverMessageHandler L s bs).1.sessionId = false
    ∧ ∀ f ∈ serverFrames (serverMessageHandler L s bs).2, frameEventId f ≠ some 200 := by
  cases hdec : decodeMessage L.jparse L.gunzip L.utf8dec bs with
  | none =>
    simp [serverMessageHandler, hdec, hsid, serverFrames, serverFramesEff, List.singleton_append]
  | some d =>
    have hev : d.eventId ≠ some EVENT_IDS.SESSION_STARTED := by
      simp only [sessionTrigger, hdec] at htrig
      simpa using htrig
    simp only [serverMessageHandler, hdec]
    by_cases hc2 : d.serializationMethod = 0 ∧ jvIsBuffer d.payload = true ∧ d.messageType = 11
    · rw [if_pos hc2]
      refine ⟨hsid, fun f hf => ?_⟩
      by_cases hc1 : d.serializationMethod = 0 ∧ jvIsBuffer d.payload = true ∧
          s.clientReadyState = 1 <;> simp [hc1, serverFrames, serverFramesEff, List.singleton_append] at hf
    · rw [if_neg hc2]
      by_cases hc3 : d.messageType = MESSAGE_TYPES.ERROR_INFO
      · rw [if_pos hc3]
        refine ⟨hsid, fun f hf => ?_⟩
        by_cases hc1 : d.serializationMethod = 0 ∧ jvIsBuffer d.payload = true ∧
            s.clientReadyState = 1 <;>
          by_cases hco : s.clientReadyState = 1 <;>
          simp [hc1, hco, serverFrames, serverFramesEff, serverFrames_append,
            serverFrames_ite_bin, serverFrames_ite_bin', serverFrames_ite_text] at hf
      · rw [if_neg hc3]
        by_cases hc4 : d.messageType = 11
        · rw [if_pos hc4]
          refine ⟨hsid, fun f hf => ?_⟩
          by_cases hc1 : d.serializationMethod = 0 ∧ jvIsBuffer d.payload = true ∧
              s.clientReadyState = 1 <;>
            by_cases ha : ackAudioData L.gunzip d ≠ [] ∧ s.clientReadyState = 1 <;>
            simp [hc1, ha, serverFrames, serverFramesEff, serverFrames_append,
              serverFrames_ite_bin, serverFrames_ite_bin', serverFrames_ite_text] at hf
        · rw [if_neg hc4]
          cases hE : d.eventId with
          | none =>
            refine ⟨hsid, fun f hf => ?_⟩
            by_cases hc1 : d.serializationMethod = 0 ∧ jvIsBuffer d.payload = true ∧
                s.clientReadyState = 1 <;> simp [hc1, serverFrames, serverFramesEff, List.singleton_append] at hf
          | some ev =>
            have hev' : ev ≠ EVENT_IDS.SESSION_STARTED := by
              intro h
              exact hev (by rw [hE, h])
            have hd := dispatch_no200 L s d ev hsid hev'
            refine ⟨hd.1, fun f hf => ?_⟩
            simp only [serverFrames_append, List.mem_append] at hf
            rcases hf with hf | hf
            · by_cases hc1 : d.serializationMethod = 0 ∧ jvIsBuffer d.payload = true ∧
                s.clientReadyState = 1 <;> simp [hc1, serverFrames, serverFramesEff, List.singleton_append] at hf
            · exact hd.2 f hf

theorem step_no200 (L : Libs) (s : BridgeState) (i : BInput)
    (hsid : truthyStr s.sessionId = false) (htrig : sessionTrigger L i = false) :
    truthyStr (stepBridge L s i).1.sessionId = false
    ∧ ∀ f ∈ serverFrames (stepBridge L s i).2, frameEventId f ≠ some 200 := by
  cases i with
  | clientMsg m =>
    have hns : ∀ a b c, m ≠ ClientMsg.startSession a b c := by
      intro a b c h
      subst h
      simp [sessionTrigger] at htrig
    exact clientMsg_no200 L s m hsid hns
  | serverData bs => exact serverMsg_no200 L s bs hsid htrig
  | serverOpen =>
    constructor
    · simp [stepBridge, sendStartConnection, hsid]
    · intro f hf
      simp only [stepBridge, sendStartConnection] at hf
      norm_num at hf
      simp only [serverFrames, serverFramesEff, List.append_nil, List.mem_singleton] at hf
      subst hf
      rw [frameEventId_encode L.gz MESSAGE_TYPES.FULL_CLIENT_REQUEST (JVal.jobj [])
        EVENT_IDS.START_CONNECTION none none true (by decide) (by decide)]
      decide
  | clientClosed =>
    by_cases ho : s.serverReadyState = 1
    · constructor
      · simp [stepBridge, clientClosedHandler, sendFinishSession, sendFinishConnection,
          ho, hsid]
      · intro f hf
        simp only [stepBridge, clientClosedHandler, sendFinishSession,
          sendFinishConnection] at hf
        norm_num [ho] at hf
        simp only [serverFrames, serverFramesEff, List.mem_append, List.mem_singleton,
          List.append_nil, List.not_mem_nil, or_false] at hf
        rcases hf with rfl | rfl
        · rw [frameEventId_encode L.gz MESSAGE_TYPES.FULL_CLIENT_REQUEST (JVal.jobj [])
            EVENT_IDS.FINISH_SESSION s.sessionId none true (by decide) (by decide)]
          decide
        · rw [frameEventId_encode L.gz MESSAGE_TYPES.FULL_CLIENT_REQUEST (JVal.jobj [])
            EVENT_IDS.FINISH_CONNECTION none none true (by decide) (by decide)]
          decide
    · constructor
      · simp [stepBridge, clientClosedHandler, ho, hsid]
      · intro f hf
        simp [stepBridge, clientClosedHandler, ho, serverFrames, serverFramesEff, List.singleton_append] at hf
  | serverClosed code reason =>
    by_cases hc : s.clientReadyState = 1 <;>
      constructor <;>
      simp [stepBridge, serverClosedHandler, hc, hsid, serverFrames, serverFramesEff, List.singleton_append]

theorem run_no200 (L : Libs) (inputs : List BInput) : ∀ s : BridgeState,
    truthyStr s.sessionId = false →
    (∀ i ∈ inputs, sessionTrigger L i = false) →
    truthyStr (runBridge L s inputs).1.sessionId = false
    ∧ ∀ f ∈ serverFrames (runBridge L s inputs).2, frameEventId f ≠ some 200 := by
  induction inputs with
  | nil =>
    intro s hs _
    exact ⟨hs, by intro f hf; simp [runBridge, serverFrames, serverFramesEff, List.singleton_append] at hf⟩
  | cons i rest ih =>
    intro s hs htr
    have h1 := step_no200 L s i hs (htr i (by simp))
    have h2 := ih (stepBridge L s i).1 h1.1 (fun j hj => htr j (by simp [hj]))
    constructor
    · simpa [runBridge] using h2.1
    · intro f hf
      simp only [runBridge, serverFrames_append, List.mem_append] at hf
      rcases hf with hf | hf
      · exact h1.2 f hf
      · exact h2.2 f hf

/-- C2: The TASK_REQUEST gating claim, corrected. In every run of the bridge from
its initial state whose inputs contain no session trigger (no client start_session
and no decoded SESSION_STARTED frame), no frame sent upstream carries eventId 200
(TASK_REQUEST); and client binary audio arriving while sessionId is unassigned and
the upstream socket is open is appended to the message queue with no effects. -/
theorem C2_gating (L : Libs) :
    (∀ inputs : List BInput, (∀ i ∈ inputs, sessionTrigger L i = false) →
      ∀ f ∈ serverFrames (runBridge L initBridgeState inputs).2,
        frameEventId f ≠ some EVENT_IDS.TASK_REQUEST)
    ∧ (∀ (s : BridgeState) (data : List Nat), s.sessionId = none → s.serverReadyState = 1 →
      stepBridge L s (BInput.clientMsg (ClientMsg.binary data)) =
        ({s with messageQueue := s.messageQueue ++ [QueueItem.audio data]}, [])) := by
  constructor
  · intro inputs htr f hf
    exact (run_no200 L inputs initBridgeState rfl htr).2 f hf
  · intro s data hsid ho
    simp [stepBridge, clientMessageHandler, truthyStr, hsid, ho]

/-- C2 counterexample: the spec says TASK_REQUEST is gated on receiving
SESSION_STARTED from upstream, but the code gates on the local sessionId variable,
which the client's own start_session message sets (line 508) before any upstream
frame arrives. A trace with no upstream data at all (so no SESSION_STARTED can have
been received) still emits a TASK_REQUEST frame with eventId 200. -/
theorem C2_counterexample :
    (([BInput.serverOpen,
       BInput.clientMsg (ClientMsg.startSession none none none),
       BInput.clientMsg (ClientMsg.binary [1, 2, 3])].all
        (fun i => match i with
          | BInput.serverData _ => false
          | _ => true)) = true)
    ∧ encodeMessage id 2 4 (JVal.jbuf [1, 2, 3]) (some 200) (some "session_0") none none true
        ∈ serverFrames (runBridge stubLibs initBridgeState
            [BInput.serverOpen,
             BInput.clientMsg (ClientMsg.startSession none none none),
             BInput.clientMsg (ClientMsg.binary [1, 2, 3])]).2
    ∧ frameEventId (encodeMessage id 2 4 (JVal.jbuf [1, 2, 3]) (some 200) (some "session_0")
        none none true) = some 200 := by
  refine ⟨rfl, by decide, by decide⟩

theorem C2_gating_witness :
    frameEventId (encodeMessage id 1 4 (JVal.jobj []) (some 1) none none none true) ≠ some 200
    ∧ stepBridge stubLibs {initBridgeState with serverReadyState := 1}
        (BInput.clientMsg (ClientMsg.binary [7, 8])) =
      ({initBridgeState with serverReadyState := 1, messageQueue := [QueueItem.audio [7, 8]]},
       []) :=
  ⟨(C2_gating stubLibs).1 [BInput.serverOpen, BInput.clientMsg (ClientMsg.binary [5])]
      (by decide) _ (by decide),
   (C2_gating stubLibs).2 {initBridgeState with serverReadyState := 1} [7, 8] rfl rfl⟩
